import Mathlib

/-!
Verification of the projectile-physics core of `src/components/InfinityScene.tsx`
(the `DynamicProjectiles` component: spawning, the per-frame force-field update,
stability safeguards and culling).

The development contains three embeddings of the same source code, each named
after the source construct it transcribes:

* a functional embedding over `ℚ` (exact rational arithmetic) of the per-frame
  `useFrame` body: `spawnLogic`, `updateProjectile` and `physicsUpdate`.
  `Math.sqrt` is passed in as a function parameter `sqrtF : ℚ → ℚ`; theorems
  about a particle at a given distance carry the hypotheses `0 ≤ dist` and
  `dist * dist = lengthSq position` that characterise the exact square root.
  `Math.random()` draws are explicit inputs (`rnd`, and the spawn draws).
  THREE.js vector methods mutate their receiver in place and return it; the
  transcription is in SSA form and reproduces that aliasing faithfully
  (e.g. in the RED branch `dirOut` is scaled in place at line 319 before it is
  reused as `pushOut` at lines 327-333).

* an embedding over `JsNum` (rationals extended with IEEE-754 special values
  NaN, Infinity, -Infinity) of the same per-particle update, used to verify the
  behaviour of the non-finite-position safeguards: `jsUpdateProjectile`.

* a heap-passing embedding (`heapUpdateProjectile`) in which every THREE.js
  vector lives in an explicit store and every `clone` / `add` /
  `multiplyScalar` / ... call is a store operation, used to verify that the
  update never mutates the vectors of the previous pool.
-/

/-- A THREE.Vector3 with exact rational components. -/
structure Vec3 where
  x : ℚ
  y : ℚ
  z : ℚ
deriving DecidableEq

instance : Inhabited Vec3 := ⟨⟨0, 0, 0⟩⟩

/-- Componentwise addition (`Vector3.add`). -/
def Vec3.add (a b : Vec3) : Vec3 := ⟨a.x + b.x, a.y + b.y, a.z + b.z⟩

/-- Componentwise subtraction (`Vector3.sub`). -/
def Vec3.sub (a b : Vec3) : Vec3 := ⟨a.x - b.x, a.y - b.y, a.z - b.z⟩

/-- Negation (`Vector3.negate`). -/
def Vec3.neg (a : Vec3) : Vec3 := ⟨-a.x, -a.y, -a.z⟩

/-- Scalar multiplication (`Vector3.multiplyScalar`). -/
def Vec3.smul (k : ℚ) (a : Vec3) : Vec3 := ⟨k * a.x, k * a.y, k * a.z⟩

/-- Dot product (`Vector3.dot`). -/
def Vec3.dot (a b : Vec3) : ℚ := a.x * b.x + a.y * b.y + a.z * b.z

/-- Squared length (`Vector3.lengthSq`). -/
def Vec3.lengthSq (a : Vec3) : ℚ := a.x * a.x + a.y * a.y + a.z * a.z

/-- THREE.js `Vector3.normalize`: `divideScalar(this.length() || 1)`, where
`length()` is `Math.sqrt(lengthSq())`, modelled by the parameter `sqrtF`. -/
def Vec3.normalize (sqrtF : ℚ → ℚ) (a : Vec3) : Vec3 :=
  let l := sqrtF a.lengthSq
  Vec3.smul (1 / (if l = 0 then 1 else l)) a

/-- The technique enumeration (`TechniqueType` in `src/types`). -/
inductive TechniqueType where
  | NEUTRAL
  | BLUE
  | RED
  | PURPLE
deriving DecidableEq

/-- The UI theme; it only selects the spawn colour. -/
inductive Theme where
  | dark
  | light
deriving DecidableEq

/-- The `ProjectileData` record of `InfinityScene.tsx` (`scale?` defaults to 1
at every use site, so it is modelled as a plain field). -/
structure ProjectileData where
  id : ℚ
  position : Vec3
  velocity : Vec3
  active : Bool
  color : String
  scale : ℚ
deriving DecidableEq

instance : Inhabited ProjectileData :=
  ⟨{ id := 0, position := default, velocity := default, active := false,
     color := "", scale := 1 }⟩

/-- Delta-time clamp of line 130: `Math.min(delta, 0.1)`. -/
def safeDelta (delta : ℚ) : ℚ := min delta (1 / 10)

/-- Result of one technique branch: the (possibly rebound) `currentVelocity`,
`moveVec`, `currentScale` and `active` locals at the end of the branch. -/
structure UpdateResult where
  velocity : Vec3
  moveVec : Vec3
  scale : ℚ
  active : Bool
deriving DecidableEq

/-- NEUTRAL branch, lines 209-241 ("Zeno's Paradox").  `rnd` packs the three
`Math.random() - 0.5` draws of the vibration site. -/
def neutralUpdate (isCrowded : Bool) (dist dt : ℚ) (rnd : Vec3)
    (currentVelocity moveVec : Vec3) (currentScale : ℚ) (active : Bool) :
    UpdateResult :=
  let interactionRadius : ℚ := 7 / 2
  let stoppingRadius : ℚ := 27 / 20
  if dist < interactionRadius then
    let d := max 0 (dist - stoppingRadius)
    let range := interactionRadius - stoppingRadius
    let ratio := d / range
    let speedFactor := ratio ^ 3
    let moveVec1 := Vec3.smul (max (1 / 10000) speedFactor) moveVec
    let moveVec2 :=
      if ratio < 3 / 10 ∧ ratio > 0 then
        let vibrationIntensity := 8 / 100 * (1 - ratio / (3 / 10))
        Vec3.add moveVec1 (Vec3.smul vibrationIntensity rnd)
      else moveVec1
    let currentScale1 :=
      if isCrowded then (if ratio < 1 / 2 then currentScale * (90 / 100) else currentScale)
      else (if ratio < 1 / 10 then currentScale * (995 / 1000) else currentScale)
    ⟨currentVelocity, moveVec2, currentScale1, active⟩
  else ⟨currentVelocity, moveVec, currentScale, active⟩

/-- BLUE branch, lines 242-286 ("Ganking / Accumulation").  Note that line 284
rebinds `moveVec` to `currentVelocity.clone().multiplyScalar(safeDelta)`
unconditionally, discarding the shaking added to the previous `moveVec` at
lines 267-271. -/
def blueUpdate (sqrtF : ℚ → ℚ) (trappedCount : ℕ) (dist dt : ℚ) (rnd : Vec3)
    (currentPos currentVelocity moveVec : Vec3) (currentScale : ℚ)
    (active : Bool) : UpdateResult :=
  let coreRadius : ℚ := 2
  let attractionRadius : ℚ := 15
  let currentVelocity1 :=
    if dist < attractionRadius then
      let pullDir :=
        if dist > 1 / 10 then Vec3.neg (Vec3.normalize sqrtF currentPos)
        else ⟨0, 0, 0⟩
      let pullStrength : ℚ := 20
      Vec3.add currentVelocity (Vec3.smul (pullStrength * dt) pullDir)
    else currentVelocity
  let trapped := dist < coreRadius + 1
  let currentVelocity2 :=
    if trapped then Vec3.smul (85 / 100) currentVelocity1 else currentVelocity1
  let moveVec1 :=
    if trapped then
      let range := coreRadius + 1
      let closeness := max 0 (1 - dist / range)
      let shakeIntensity := 5 / 100 + closeness ^ 4 * (6 / 10)
      Vec3.add moveVec (Vec3.smul shakeIntensity rnd)
    else moveVec
  let shrinkThreshold : ℕ := 8
  let currentScale1 :=
    if trappedCount > shrinkThreshold ∧ dist < coreRadius + 1 / 2 then
      let excess := (trappedCount : ℚ) - 8
      let shrinkFactor := 99 / 100 - min excess 50 * (5 / 1000)
      currentScale * max (8 / 10) shrinkFactor
    else currentScale
  -- line 284: moveVec = currentVelocity.clone().multiplyScalar(safeDelta)
  let moveVec2 := Vec3.smul dt currentVelocity2
  let active1 := if currentScale1 < 1 / 10 then false else active
  ⟨currentVelocity2, moveVec2, currentScale1, active1⟩

/-- RED branch, lines 288-336 ("Bouncy Wall").  `multiplyScalar`, `sub` and
`copy` mutate their receiver in THREE.js, so `dirOut` is successively rebound:
scaled by `totalForce` at line 319, then by `coreRadius + 0.2` at line 327
(becoming `pushOut`), then shifted by `-currentPos` at line 329, and that
vector is what line 333 scales and copies into the velocity. -/
def redUpdate (sqrtF : ℚ → ℚ) (dist dt : ℚ)
    (currentPos currentVelocity moveVec : Vec3) (currentScale : ℚ)
    (active : Bool) : UpdateResult :=
  let repulsionRadius : ℚ := 9 / 2
  let coreRadius : ℚ := 3 / 2
  if dist < repulsionRadius then
    let dirOut :=
      if dist > 1 / 100 then Vec3.normalize sqrtF currentPos else ⟨1, 0, 0⟩
    let approachSpeed := -(Vec3.dot currentVelocity dirOut)
    let rawDepth := max 0 ((dist - coreRadius) / (repulsionRadius - coreRadius))
    let depth := 1 - rawDepth
    let intensity := depth ^ 3
    let staticForce := 80 * intensity
    let reflectionForce :=
      if approachSpeed > 0 then approachSpeed * (1 + 40 * intensity) else 0
    let totalForce := (staticForce + reflectionForce) * dt
    -- `!isNaN(totalForce) && isFinite(totalForce)` always holds over ℚ
    let dirOut1 := Vec3.smul totalForce dirOut
    let currentVelocity1 := Vec3.add currentVelocity dirOut1
    let moveVec1 := Vec3.smul dt currentVelocity1
    if dist < coreRadius + 2 / 10 then
      let pushOut := Vec3.smul (coreRadius + 2 / 10) dirOut1
      let pushOut1 := Vec3.sub pushOut currentPos
      let moveVec2 := Vec3.add moveVec1 pushOut1
      let currentVelocity2 :=
        if approachSpeed > 0 then
          let currentSpeed := sqrtF (Vec3.lengthSq currentVelocity1)
          Vec3.smul (currentSpeed * (8 / 10)) pushOut1
        else currentVelocity1
      ⟨currentVelocity2, moveVec2, currentScale, active⟩
    else ⟨currentVelocity1, moveVec1, currentScale, active⟩
  else ⟨currentVelocity, moveVec, currentScale, active⟩

/-- PURPLE branch, lines 337-364 ("Crumble + Erase"). -/
def purpleUpdate (sqrtF : ℚ → ℚ) (dist distSq dt : ℚ) (rnd : Vec3)
    (currentPos currentVelocity moveVec : Vec3) (currentScale : ℚ)
    (active : Bool) : UpdateResult :=
  let safeDistSq := max (1 / 10) distSq
  let pullStrength := 30 / (safeDistSq + 1 / 10)
  let pullDir :=
    if dist > 1 / 10 then Vec3.neg (Vec3.normalize sqrtF currentPos)
    else ⟨0, 0, 0⟩
  let currentVelocity1 :=
    Vec3.add currentVelocity (Vec3.smul (pullStrength * dt) pullDir)
  let moveVec1 := Vec3.smul dt currentVelocity1
  let inCore := dist < 5 / 2
  let currentVelocity2 :=
    if inCore then Vec3.smul (92 / 100) currentVelocity1 else currentVelocity1
  let moveVec2 := if inCore then Vec3.smul (92 / 100) moveVec1 else moveVec1
  let moveVec3 :=
    if inCore then
      let vibration := 2 / 10 * (1 - dist / (5 / 2))
      Vec3.add moveVec2 (Vec3.smul vibration rnd)
    else moveVec2
  let currentScale1 := if inCore then currentScale * (92 / 100) else currentScale
  let active1 := if currentScale1 < 5 / 100 then false else active
  let active2 := if dist < 1 / 2 then false else active1
  ⟨currentVelocity2, moveVec3, currentScale1, active2⟩

/-- Lines 366-377: integrate the move vector and apply the shared bounds,
minimum-scale and final NaN checks (rationals are always finite; the IEEE
behaviour of the NaN checks is covered by the `JsNum` embedding below). -/
def finalizeUpdate (sqrtF : ℚ → ℚ) (p : ProjectileData) (r : UpdateResult) :
    ProjectileData :=
  let newPos := Vec3.add p.position r.moveVec
  let active1 := if sqrtF newPos.lengthSq > 30 then false else r.active
  let active2 := if r.scale < 1 / 100 then false else active1
  { p with position := newPos, velocity := r.velocity, active := active2,
           scale := r.scale }

/-- The per-particle body of the physics update (lines 191-377), for one
particle `p`, with the per-tick aggregates `trappedCount` / `isCrowded`
computed by the caller and the branch's three `Math.random() - 0.5` draws
packed into `rnd`.  `dt` is the already clamped `safeDelta`. -/
def updateProjectile (sqrtF : ℚ → ℚ) (technique : TechniqueType)
    (trappedCount : ℕ) (isCrowded : Bool) (dt : ℚ) (rnd : Vec3)
    (p : ProjectileData) : ProjectileData :=
  if p.active = false then p
  else
    -- the isNaN position safeguard of lines 196-198 cannot fire over ℚ
    let currentPos := p.position
    let distSq := currentPos.lengthSq
    let dist := sqrtF distSq
    let currentScale := p.scale
    let currentVelocity := p.velocity
    let moveVec := Vec3.smul dt currentVelocity
    let r :=
      match technique with
      | .NEUTRAL =>
          neutralUpdate isCrowded dist dt rnd currentVelocity moveVec
            currentScale p.active
      | .BLUE =>
          blueUpdate sqrtF trappedCount dist dt rnd currentPos currentVelocity
            moveVec currentScale p.active
      | .RED =>
          redUpdate sqrtF dist dt currentPos currentVelocity moveVec
            currentScale p.active
      | .PURPLE =>
          purpleUpdate sqrtF dist distSq dt rnd currentPos currentVelocity
            moveVec currentScale p.active
    finalizeUpdate sqrtF p r

/-- Lines 176-187: the BLUE pre-calculation counting active particles with
`position.lengthSq() < 6.25`; zero for the other techniques. -/
def trappedCountOf (technique : TechniqueType) (prev : List ProjectileData) :
    ℕ :=
  if technique = TechniqueType.BLUE then
    prev.countP (fun p => p.active && decide (p.position.lengthSq < 25 / 4))
  else 0

/-- The physics update of lines 175-379: map the per-particle body over the
previous pool (aggregates computed from the tick-start pool) and drop the
particles that ended the tick inactive.  `rnd i` supplies the random draws
consumed while updating the `i`-th particle. -/
def physicsUpdate (sqrtF : ℚ → ℚ) (technique : TechniqueType) (dt : ℚ)
    (rnd : ℕ → Vec3) (prev : List ProjectileData) : List ProjectileData :=
  let trappedCount := trappedCountOf technique prev
  let isCrowded := decide (prev.length > 40)
  ((prev.enum.map fun ip =>
      updateProjectile sqrtF technique trappedCount isCrowded dt (rnd ip.1)
        ip.2).filter
    (fun p => p.active))

/-- The random draws consumed by one spawn (lines 138-170).  The uniformly
random angle enters only through its cosine and sine, which are taken as the
inputs `cosAngle` / `sinAngle`; `yRand`, `speedRand`, `idRand` and
`intervalRand` are raw `Math.random()` values in `[0, 1)` and `now` is
`Date.now()`. -/
structure SpawnDraws where
  cosAngle : ℚ
  sinAngle : ℚ
  yRand : ℚ
  speedRand : ℚ
  now : ℚ
  idRand : ℚ
  intervalRand : ℚ

/-- Lines 138-163: build the newly spawned projectile. -/
def newProjectile (sqrtF : ℚ → ℚ) (theme : Theme)
    (minSpeed maxSpeed : ℚ) (draws : SpawnDraws) : ProjectileData :=
  let radius : ℚ := 14
  let startPos : Vec3 :=
    ⟨draws.cosAngle * radius, (draws.yRand - 1 / 2) * 12,
      draws.sinAngle * radius⟩
  -- the isNaN(startPos.x) safety check of line 147 cannot fire over ℚ
  let direction := Vec3.normalize sqrtF (Vec3.sub ⟨0, 0, 0⟩ startPos)
  let speed := minSpeed + draws.speedRand * (maxSpeed - minSpeed)
  { id := draws.now + draws.idRand,
    position := startPos,
    velocity := Vec3.smul speed direction,
    active := true,
    color := if theme = Theme.dark then "#fbbf24" else "#ef4444",
    scale := 1 }

/-- Lines 153-164: the functional pool update passed to `setProjectiles` when
spawning — skip if the pool already holds more than 120 particles, otherwise
append. -/
def spawnIntoPool (prev : List ProjectileData) (p : ProjectileData) :
    List ProjectileData :=
  if prev.length > 120 then prev else prev ++ [p]

/-- The mutable per-frame state owned by `DynamicProjectiles`: the pool and
the two spawn-timer refs. -/
structure SpawnState where
  projectiles : List ProjectileData
  timeSinceLastSpawn : ℚ
  nextSpawnInterval : ℚ
deriving DecidableEq

/-- The spawning logic of lines 132-172 for one frame with clamped delta
`dt`: advance the timer only when `spawnRate > 0`; on a due frame build the
particle, attempt to add it (population cap inside `spawnIntoPool`), and
unconditionally reset the timer and re-randomize the interval. -/
def spawnLogic (sqrtF : ℚ → ℚ) (theme : Theme)
    (spawnRate minSpeed maxSpeed dt : ℚ) (draws : SpawnDraws)
    (st : SpawnState) : SpawnState :=
  if spawnRate > 0 then
    let t := st.timeSinceLastSpawn + dt
    if t ≥ st.nextSpawnInterval then
      let p := newProjectile sqrtF theme minSpeed maxSpeed draws
      let pool := spawnIntoPool st.projectiles p
      let baseInterval := 1 / spawnRate
      let variation := baseInterval * (3 / 10)
      let nextInterval :=
        baseInterval + (draws.intervalRand * variation * 2 - variation)
      ⟨pool, 0, nextInterval⟩
    else ⟨st.projectiles, t, st.nextSpawnInterval⟩
  else st

/-- One whole `useFrame` tick (lines 128-380): clamp the delta, run the
spawning logic, then the physics update. -/
def frame (sqrtF : ℚ → ℚ) (theme : Theme) (technique : TechniqueType)
    (spawnRate minSpeed maxSpeed delta : ℚ) (draws : SpawnDraws)
    (rnd : ℕ → Vec3) (st : SpawnState) : SpawnState :=
  let dt := safeDelta delta
  let st1 := spawnLogic sqrtF theme spawnRate minSpeed maxSpeed dt draws st
  ⟨physicsUpdate sqrtF technique dt rnd st1.projectiles,
    st1.timeSinceLastSpawn, st1.nextSpawnInterval⟩

/-!
Concrete `sqrtF` instances used when evaluating the code at specific inputs:
each is a finite table that returns the exact square root at every argument on
which the evaluated run calls `Math.sqrt`, i.e. it agrees with the real square
root wherever the run consults it.
-/

/-- Square-root table for the RED hard-floor run from `(8/5, 0, 0)` with
velocity `(-1, 0, 0)`: the run calls `Math.sqrt` on the squared distance
`64/25`, on the squared length of the post-bounce velocity and on the squared
length of the final position. -/
def sqrtRedRun : ℚ → ℚ := fun q =>
  if q = 64 / 25 then 8 / 5
  else if q = 125037124 / 1265625 then 11182 / 1125
  else if q = 599711121 / 1562500 then 24489 / 1250
  else 0

/-- Square-root table for BLUE runs from `(3/2, 0, 0)` (velocity 0) and for
trapped particles at `(1, 0, 0)`: covers the squared distances `9/4` and `1`
and the squared lengths of the corresponding final positions. -/
def sqrtBlueRun : ℚ → ℚ := fun q =>
  if q = 9 / 4 then 3 / 2
  else if q = 17689 / 10000 then 133 / 100
  else if q = 1 then 1
  else if q = 6889 / 10000 then 83 / 100
  else 0

/-- The RED test particle of the spec: distance `8/5 = coreRadius + 0.1`
from the origin, moving straight inward. -/
def redTestParticle : ProjectileData :=
  { id := 1, position := ⟨8 / 5, 0, 0⟩, velocity := ⟨-1, 0, 0⟩,
    active := true, color := "#fbbf24", scale := 1 }

/-- C1.  The RED "hard floor" does NOT clamp the next position to exactly
`coreRadius + 0.2 = 1.7` along the outward radial direction, and does not set
the velocity to the outward direction times 80% of the current speed: for the
particle at distance `1.6 < 1.7` moving inward (outward direction `(1,0,0)`,
`approachSpeed = 1 > 0`), the tick puts it at `(24489/1250, 0, 0)` — distance
about `19.59` — because line 319 scaled `dirOut` in place by `totalForce`
before lines 327-333 reused it as the push-out direction, and line 329 adds
the push-out correction on top of the bounce move instead of replacing it. -/
theorem red_hard_floor_not_clamped :
    (updateProjectile sqrtRedRun TechniqueType.RED 0 false (1 / 10) ⟨0, 0, 0⟩
        redTestParticle).position = ⟨24489 / 1250, 0, 0⟩ ∧
    (updateProjectile sqrtRedRun TechniqueType.RED 0 false (1 / 10) ⟨0, 0, 0⟩
        redTestParticle).position ≠ ⟨17 / 10, 0, 0⟩ ∧
    (updateProjectile sqrtRedRun TechniqueType.RED 0 false (1 / 10) ⟨0, 0, 0⟩
        redTestParticle).velocity ≠
      Vec3.smul ((11182 / 1125) * (8 / 10)) ⟨1, 0, 0⟩ ∧
    sqrtRedRun (Vec3.lengthSq redTestParticle.position) < 3 / 2 + 2 / 10 := by
  refine ⟨?_, ?_, ?_, ?_⟩ <;>
    norm_num [updateProjectile, redUpdate, finalizeUpdate, sqrtRedRun,
      redTestParticle, Vec3.smul, Vec3.add, Vec3.sub, Vec3.neg, Vec3.dot,
      Vec3.lengthSq, Vec3.normalize]

/-- The BLUE test particle: at rest at distance `3/2` from the origin, well
inside the trapping radius `3.0`. -/
def blueTestParticle : ProjectileData :=
  { id := 1, position := ⟨3 / 2, 0, 0⟩, velocity := ⟨0, 0, 0⟩,
    active := true, color := "#fbbf24", scale := 1 }

/-- C4.  The positional delta actually applied by the BLUE branch contains NO
jitter: line 284 recomputes `moveVec` from the damped velocity, discarding the
shaking added at lines 267-271.  At distance `3/2` (inside `coreRadius+1`),
the shake intensity `0.05 + closeness^4 * 0.6` is nonzero, yet the resulting
position is exactly `oldPos + dampedVelocity * dt = (133/100, 0, 0)` — its y
and z components are 0 — and the whole update is independent of the random
draws. -/
theorem blue_jitter_never_applied :
    (updateProjectile sqrtBlueRun TechniqueType.BLUE 0 false (1 / 10)
        ⟨1 / 4, 1 / 4, 1 / 4⟩ blueTestParticle).position =
      ⟨133 / 100, 0, 0⟩ ∧
    updateProjectile sqrtBlueRun TechniqueType.BLUE 0 false (1 / 10)
        ⟨1 / 4, 1 / 4, 1 / 4⟩ blueTestParticle =
      updateProjectile sqrtBlueRun TechniqueType.BLUE 0 false (1 / 10)
        ⟨0, 0, 0⟩ blueTestParticle ∧
    (5 / 100 + (max 0 (1 - (3 / 2) / 3)) ^ 4 * (6 / 10) : ℚ) * (1 / 4) ≠ 0 := by
  refine ⟨?_, ?_, ?_⟩ <;>
    norm_num [updateProjectile, blueUpdate, finalizeUpdate, sqrtBlueRun,
      blueTestParticle, Vec3.smul, Vec3.add, Vec3.sub, Vec3.neg, Vec3.dot,
      Vec3.lengthSq, Vec3.normalize]

/-- Fixed spawn draws used by the rapid-spawn runs: angle 0 (so the spawn ring
point is `(14, 0, 0)`), centred vertical offset, midpoint speed and interval
draws. -/
def rapidDraws : SpawnDraws :=
  { cosAngle := 1, sinAngle := 0, yRand := 1 / 2, speedRand := 1 / 2,
    now := 0, idRand := 0, intervalRand := 1 / 2 }

/-- Square-root table for spawning from `(14, 0, 0)`: the only `Math.sqrt`
call is the normalisation of the aim direction, on squared length `196`. -/
def sqrtSpawnRun : ℚ → ℚ := fun q => if q = 196 then 14 else 0

/-- With spawn rate 100 and frame delta `1/10`, every frame starting from a
reset timer and interval `1/100` is due and steps to a reset timer and the
same interval, attempting one spawn into the pool. -/
theorem spawnLogic_rapid_step (pool : List ProjectileData) :
    spawnLogic sqrtSpawnRun Theme.dark 100 1 2 (1 / 10) rapidDraws
        ⟨pool, 0, 1 / 100⟩ =
      ⟨spawnIntoPool pool
          (newProjectile sqrtSpawnRun Theme.dark 1 2 rapidDraws),
        0, 1 / 100⟩ := by
  norm_num [spawnLogic, rapidDraws]

/-- After `n` rapid spawn attempts from an empty pool the pool holds exactly
`min n 121` particles (the cap check `length > 120` lets the pool reach 121
before it starts skipping). -/
theorem spawnLogic_rapid_iterate (n : ℕ) :
    ∃ pool : List ProjectileData,
      (fun st => spawnLogic sqrtSpawnRun Theme.dark 100 1 2 (1 / 10)
          rapidDraws st)^[n] ⟨[], 0, 1 / 100⟩ = ⟨pool, 0, 1 / 100⟩ ∧
      pool.length = min n 121 := by
  induction n with
  | zero => exact ⟨[], rfl, rfl⟩
  | succ n ih =>
      obtain ⟨pool, hst, hlen⟩ := ih
      rw [Function.iterate_succ_apply', hst, spawnLogic_rapid_step]
      refine ⟨_, rfl, ?_⟩
      simp only [spawnIntoPool]
      split
      · omega
      · simp only [List.length_append, List.length_cons, List.length_nil]
        omega

/-- C2 counterexample.  122 spawn attempts in rapid succession with
`spawnRate = 100 > 0` leave the pool holding 121 live particles — more than
120 — refuting "the pool never holds more than 120 live particles". -/
theorem spawn_cap_reaches_121 :
    ((fun st => spawnLogic sqrtSpawnRun Theme.dark 100 1 2 (1 / 10)
        rapidDraws st)^[122] ⟨[], 0, 1 / 100⟩).projectiles.length = 121 ∧
    ¬ ((fun st => spawnLogic sqrtSpawnRun Theme.dark 100 1 2 (1 / 10)
        rapidDraws st)^[122] ⟨[], 0, 1 / 100⟩).projectiles.length ≤ 120 := by
  obtain ⟨pool, hst, hlen⟩ := spawnLogic_rapid_iterate 122
  rw [hst]
  simp only [hlen]
  omega

/-- C2 amended.  The spawn logic keeps the pool at or below 121 particles
(not 120): the cap check skips the append only when the pool already holds
*more than* 120, so the pool can reach exactly 121; the skip leaves the pool
untouched, and on every due frame with positive spawn rate the timer is reset
to 0 whether or not the spawn was skipped. -/
theorem spawn_cap_121_and_timer_reset (sqrtF : ℚ → ℚ) (theme : Theme)
    (spawnRate minSpeed maxSpeed dt : ℚ) (draws : SpawnDraws)
    (st : SpawnState) :
    (st.projectiles.length ≤ 121 →
      (spawnLogic sqrtF theme spawnRate minSpeed maxSpeed dt draws
          st).projectiles.length ≤ 121) ∧
    (120 < st.projectiles.length →
      (spawnLogic sqrtF theme spawnRate minSpeed maxSpeed dt draws
          st).projectiles = st.projectiles) ∧
    (0 < spawnRate → st.nextSpawnInterval ≤ st.timeSinceLastSpawn + dt →
      (spawnLogic sqrtF theme spawnRate minSpeed maxSpeed dt draws
          st).timeSinceLastSpawn = 0) := by
  refine ⟨?_, ?_, ?_⟩
  · intro h
    simp only [spawnLogic]
    split
    · split
      · simp only [spawnIntoPool]
        split
        · exact h
        · simp only [List.length_append, List.length_cons, List.length_nil]
          omega
      · exact h
    · exact h
  · intro h
    simp only [spawnLogic]
    split
    · split
      · simp only [spawnIntoPool]
        split
        · rfl
        · omega
      · rfl
    · rfl
  · intro hrate hdue
    simp only [spawnLogic]
    rw [if_pos hrate, if_pos (by linarith : st.timeSinceLastSpawn + dt ≥
      st.nextSpawnInterval)]

/-- C2 witness: the amended cap/timer theorem applied to one concrete due
frame from an empty pool. -/
theorem spawn_cap_121_and_timer_reset_witness :
    (spawnLogic sqrtSpawnRun Theme.dark 100 1 2 (1 / 10) rapidDraws
        ⟨[], 0, 1 / 100⟩).projectiles.length ≤ 121 ∧
    (spawnLogic sqrtSpawnRun Theme.dark 100 1 2 (1 / 10) rapidDraws
        ⟨[], 0, 1 / 100⟩).timeSinceLastSpawn = 0 :=
  ⟨(spawn_cap_121_and_timer_reset sqrtSpawnRun Theme.dark 100 1 2 (1 / 10)
      rapidDraws ⟨[], 0, 1 / 100⟩).1 (by norm_num),
   (spawn_cap_121_and_timer_reset sqrtSpawnRun Theme.dark 100 1 2 (1 / 10)
      rapidDraws ⟨[], 0, 1 / 100⟩).2.2 (by norm_num) (by norm_num)⟩

/-- A particle resting at distance 31 from the origin — beyond the culling
bound 30, so the next physics tick removes it. -/
def cullTestParticle : ProjectileData :=
  { id := 1, position := ⟨31, 0, 0⟩, velocity := ⟨0, 0, 0⟩,
    active := true, color := "#fbbf24", scale := 1 }

/-- Square-root table for the culling run from `(31, 0, 0)`: squared distance
`961` before and after the (zero) move. -/
def sqrtCullRun : ℚ → ℚ := fun q => if q = 961 then 31 else 0

/-- C8 counterexample.  Ticking twice with `spawnRate = 0` DOES change the
pool size: a pool holding one particle at distance 31 ends with 0 particles,
because the physics culling (`newPos.length() > 30`) still runs. -/
theorem zero_spawnrate_tick_changes_pool_size :
    (frame sqrtCullRun Theme.dark TechniqueType.NEUTRAL 0 1 2 (1 / 10)
        rapidDraws (fun _ => ⟨0, 0, 0⟩)
        (frame sqrtCullRun Theme.dark TechniqueType.NEUTRAL 0 1 2 (1 / 10)
          rapidDraws (fun _ => ⟨0, 0, 0⟩)
          ⟨[cullTestParticle], 0, 1⟩)).projectiles.length = 0 ∧
    (SpawnState.mk [cullTestParticle] 0 1).projectiles.length = 1 ∧
    (0 : ℕ) ≠ 1 := by
  refine ⟨?_, rfl, by omega⟩
  norm_num [frame, safeDelta, spawnLogic, physicsUpdate, trappedCountOf,
    updateProjectile, neutralUpdate, finalizeUpdate, sqrtCullRun,
    cullTestParticle, Vec3.smul, Vec3.add, Vec3.lengthSq, List.enum]

/-- C8 amended.  With `spawnRate ≤ 0` (including negative rates) the spawning
block is skipped entirely — the spawn state, timer included, is returned
unchanged, with no error — and a full tick can only shrink the pool (the
physics filter may cull particles), never grow it. -/
theorem zero_spawnrate_disables_spawning (sqrtF : ℚ → ℚ) (theme : Theme)
    (technique : TechniqueType) (spawnRate minSpeed maxSpeed delta : ℚ)
    (draws : SpawnDraws) (rnd : ℕ → Vec3) (st : SpawnState)
    (h : spawnRate ≤ 0) :
    spawnLogic sqrtF theme spawnRate minSpeed maxSpeed (safeDelta delta)
        draws st = st ∧
    (frame sqrtF theme technique spawnRate minSpeed maxSpeed delta draws rnd
        st).projectiles.length ≤ st.projectiles.length := by
  have hskip : spawnLogic sqrtF theme spawnRate minSpeed maxSpeed
      (safeDelta delta) draws st = st := by
    rw [spawnLogic, if_neg (not_lt.mpr h)]
  refine ⟨hskip, ?_⟩
  show (physicsUpdate sqrtF technique (safeDelta delta) rnd
      (spawnLogic sqrtF theme spawnRate minSpeed maxSpeed (safeDelta delta)
        draws st).projectiles).length ≤ st.projectiles.length
  rw [hskip]
  calc (physicsUpdate sqrtF technique (safeDelta delta) rnd
          st.projectiles).length
      ≤ (st.projectiles.enum.map fun ip =>
          updateProjectile sqrtF technique
            (trappedCountOf technique st.projectiles)
            (decide (st.projectiles.length > 40)) (safeDelta delta)
            (rnd ip.1) ip.2).length := List.length_filter_le _ _
    _ = st.projectiles.length := by
        rw [List.length_map, List.enum_length]

/-- C8 witness: the disabled-spawning theorem at a concrete negative spawn
rate and a singleton pool. -/
theorem zero_spawnrate_disables_spawning_witness :
    spawnLogic sqrtCullRun Theme.dark (-5) 1 2 (safeDelta (1 / 10)) rapidDraws
        ⟨[cullTestParticle], 0, 1⟩ = ⟨[cullTestParticle], 0, 1⟩ ∧
    (frame sqrtCullRun Theme.dark TechniqueType.NEUTRAL (-5) 1 2 (1 / 10)
        rapidDraws (fun _ => ⟨0, 0, 0⟩)
        ⟨[cullTestParticle], 0, 1⟩).projectiles.length ≤ 1 :=
  zero_spawnrate_disables_spawning sqrtCullRun Theme.dark
    TechniqueType.NEUTRAL (-5) 1 2 (1 / 10) rapidDraws (fun _ => ⟨0, 0, 0⟩)
    ⟨[cullTestParticle], 0, 1⟩ (by norm_num)

/-- Draws for a first spawn at clock value 5 with a high random id offset. -/
def earlyHighDraws : SpawnDraws :=
  { cosAngle := 1, sinAngle := 0, yRand := 1 / 2, speedRand := 1 / 2,
    now := 5, idRand := 9 / 10, intervalRand := 1 / 2 }

/-- Draws for a later spawn at the same clock value with a low id offset. -/
def lateLowDraws : SpawnDraws :=
  { cosAngle := 1, sinAngle := 0, yRand := 1 / 2, speedRand := 1 / 2,
    now := 5, idRand := 1 / 10, intervalRand := 1 / 2 }

/-- Draws for a distinct spawn event (different ring angle) that happens to
repeat the clock value and the id draw of `earlyHighDraws`. -/
def duplicateDraws : SpawnDraws :=
  { cosAngle := 0, sinAngle := 1, yRand := 1 / 2, speedRand := 1 / 2,
    now := 5, idRand := 9 / 10, intervalRand := 1 / 2 }

/-- C5 counterexample.  Ids are `Date.now() + Math.random()`, so when two
spawns observe the same clock value they are neither monotone nor unique: a
spawn after `earlyHighDraws` can receive the smaller id `51/10 < 59/10`, and
a distinct spawn event (different spawn position) can receive exactly the
same id `59/10`. -/
theorem projectile_ids_not_monotone_or_unique :
    (newProjectile sqrtSpawnRun Theme.dark 1 2 lateLowDraws).id <
      (newProjectile sqrtSpawnRun Theme.dark 1 2 earlyHighDraws).id ∧
    (newProjectile sqrtSpawnRun Theme.dark 1 2 duplicateDraws).id =
      (newProjectile sqrtSpawnRun Theme.dark 1 2 earlyHighDraws).id ∧
    (newProjectile sqrtSpawnRun Theme.dark 1 2 duplicateDraws).position ≠
      (newProjectile sqrtSpawnRun Theme.dark 1 2 earlyHighDraws).position := by
  refine ⟨?_, ?_, ?_⟩ <;>
    norm_num [newProjectile, earlyHighDraws, lateLowDraws, duplicateDraws,
      Vec3.smul, Vec3.sub, Vec3.normalize, Vec3.lengthSq, sqrtSpawnRun]

/-- C5 amended.  Ids are strictly increasing (hence pairwise distinct) across
spawns whose `Date.now()` values increase by at least one millisecond: with
`now₁ + 1 ≤ now₂` and both `Math.random()` id draws in `[0, 1)`, the later id
is strictly greater. -/
theorem projectile_ids_monotone_for_increasing_clock (sqrtF : ℚ → ℚ)
    (theme : Theme) (minSpeed maxSpeed : ℚ) (d₁ d₂ : SpawnDraws)
    (hclock : d₁.now + 1 ≤ d₂.now)
    (h₁0 : 0 ≤ d₁.idRand) (h₁1 : d₁.idRand < 1)
    (h₂0 : 0 ≤ d₂.idRand) (h₂1 : d₂.idRand < 1) :
    (newProjectile sqrtF theme minSpeed maxSpeed d₁).id <
      (newProjectile sqrtF theme minSpeed maxSpeed d₂).id ∧
    (newProjectile sqrtF theme minSpeed maxSpeed d₁).id ≠
      (newProjectile sqrtF theme minSpeed maxSpeed d₂).id := by
  have h : (newProjectile sqrtF theme minSpeed maxSpeed d₁).id <
      (newProjectile sqrtF theme minSpeed maxSpeed d₂).id := by
    simp only [newProjectile]
    linarith
  exact ⟨h, ne_of_lt h⟩

/-- C5 witness: the amended monotonicity theorem at clock values 0 and 1. -/
theorem projectile_ids_monotone_witness :
    (newProjectile sqrtSpawnRun Theme.dark 1 2
        { cosAngle := 1, sinAngle := 0, yRand := 1 / 2, speedRand := 1 / 2,
          now := 0, idRand := 1 / 2, intervalRand := 1 / 2 }).id <
      (newProjectile sqrtSpawnRun Theme.dark 1 2
        { cosAngle := 1, sinAngle := 0, yRand := 1 / 2, speedRand := 1 / 2,
          now := 1, idRand := 0, intervalRand := 1 / 2 }).id :=
  (projectile_ids_monotone_for_increasing_clock sqrtSpawnRun Theme.dark 1 2
    _ _ (by norm_num) (by norm_num) (by norm_num) (by norm_num)
    (by norm_num)).1

/-- Subtracting back the base point of a translation recovers the offset. -/
theorem Vec3.add_sub_cancel_left (a b : Vec3) :
    Vec3.sub (Vec3.add a b) a = b := by
  cases b
  simp only [Vec3.add, Vec3.sub, Vec3.mk.injEq]
  refine ⟨by ring, by ring, by ring⟩

/-- One component of an added vibration term of intensity at most `8/100`
moves the component by at most `1/25`. -/
theorem jitter_component_bound (s i r : ℚ) (h0 : 0 ≤ i) (h1 : i ≤ 8 / 100)
    (hr : |r| ≤ 1 / 2) : |s + i * r - s| ≤ 1 / 25 := by
  have hs : s + i * r - s = i * r := by ring
  rw [hs, abs_mul, abs_of_nonneg h0]
  calc i * |r| ≤ 8 / 100 * (1 / 2) :=
        mul_le_mul h1 hr (abs_nonneg _) (by norm_num)
    _ = 1 / 25 := by norm_num

/-- C6.  NEUTRAL ("Zeno") slowdown: writing
`ratio = clamp((dist - 1.35) / (3.5 - 1.35), 0..1)` as in the spec, for a
particle in the band `1.35 ≤ dist < 3.5` the applied positional delta is
`velocity * dt` scaled by `max(0.0001, ratio^3)`, up to the vibration jitter
whose components are bounded by `1/25` (and exactly, once `ratio ≥ 0.3`
switches the vibration off); a particle held exactly at the stopping radius
has `ratio = 0` and its delta scaled by exactly `0.0001`; and at or beyond the
interaction radius the delta is the full `velocity * dt`. -/
theorem neutral_zeno_slowdown (sqrtF : ℚ → ℚ) (trapped : ℕ) (crowded : Bool)
    (dt : ℚ) (rnd : Vec3) (p : ProjectileData) (dist : ℚ)
    (hactive : p.active = true)
    (hd0 : 0 ≤ dist) (hdsq : dist * dist = p.position.lengthSq)
    (hsqrt : sqrtF p.position.lengthSq = dist)
    (hrx : |rnd.x| ≤ 1 / 2) (hry : |rnd.y| ≤ 1 / 2) (hrz : |rnd.z| ≤ 1 / 2) :
    (27 / 20 ≤ dist → dist < 7 / 2 →
      |(Vec3.sub (updateProjectile sqrtF TechniqueType.NEUTRAL trapped crowded
            dt rnd p).position p.position).x -
          (Vec3.smul (max (1 / 10000)
            ((min 1 (max 0 ((dist - 27 / 20) / (7 / 2 - 27 / 20)))) ^ 3))
            (Vec3.smul dt p.velocity)).x| ≤ 1 / 25 ∧
      |(Vec3.sub (updateProjectile sqrtF TechniqueType.NEUTRAL trapped crowded
            dt rnd p).position p.position).y -
          (Vec3.smul (max (1 / 10000)
            ((min 1 (max 0 ((dist - 27 / 20) / (7 / 2 - 27 / 20)))) ^ 3))
            (Vec3.smul dt p.velocity)).y| ≤ 1 / 25 ∧
      |(Vec3.sub (updateProjectile sqrtF TechniqueType.NEUTRAL trapped crowded
            dt rnd p).position p.position).z -
          (Vec3.smul (max (1 / 10000)
            ((min 1 (max 0 ((dist - 27 / 20) / (7 / 2 - 27 / 20)))) ^ 3))
            (Vec3.smul dt p.velocity)).z| ≤ 1 / 25) ∧
    (27 / 20 ≤ dist → dist < 7 / 2 →
      3 / 10 ≤ (dist - 27 / 20) / (7 / 2 - 27 / 20) →
      Vec3.sub (updateProjectile sqrtF TechniqueType.NEUTRAL trapped crowded
          dt rnd p).position p.position =
        Vec3.smul (max (1 / 10000)
          ((min 1 (max 0 ((dist - 27 / 20) / (7 / 2 - 27 / 20)))) ^ 3))
          (Vec3.smul dt p.velocity)) ∧
    (dist = 27 / 20 →
      Vec3.sub (updateProjectile sqrtF TechniqueType.NEUTRAL trapped crowded
          dt rnd p).position p.position =
        Vec3.smul (1 / 10000) (Vec3.smul dt p.velocity)) ∧
    (7 / 2 ≤ dist →
      Vec3.sub (updateProjectile sqrtF TechniqueType.NEUTRAL trapped crowded
          dt rnd p).position p.position = Vec3.smul dt p.velocity) := by
  have hpos : (updateProjectile sqrtF TechniqueType.NEUTRAL trapped crowded
      dt rnd p).position = Vec3.add p.position
        (neutralUpdate crowded dist dt rnd p.velocity
          (Vec3.smul dt p.velocity) p.scale p.active).moveVec := by
    simp [updateProjectile, finalizeUpdate, hactive, hsqrt]
  refine ⟨?_, ?_, ?_, ?_⟩
  · intro hlo hhi
    have hq0 : (0:ℚ) ≤ (dist - 27 / 20) / (7 / 2 - 27 / 20) := by
      apply div_nonneg <;> linarith
    have hq1 : (dist - 27 / 20) / (7 / 2 - 27 / 20) < 1 := by
      rw [div_lt_one (by norm_num)]
      linarith
    have hmax : max 0 (dist - 27 / 20) = dist - 27 / 20 :=
      max_eq_right (by linarith)
    have hmaxq : max 0 ((dist - 27 / 20) / (7 / 2 - 27 / 20)) =
        (dist - 27 / 20) / (7 / 2 - 27 / 20) := max_eq_right hq0
    have hminq : min 1 ((dist - 27 / 20) / (7 / 2 - 27 / 20)) =
        (dist - 27 / 20) / (7 / 2 - 27 / 20) := min_eq_right hq1.le
    rw [hpos, Vec3.add_sub_cancel_left, hmaxq, hminq]
    simp only [neutralUpdate, if_pos hhi, hmax]
    by_cases hvib : (dist - 27 / 20) / (7 / 2 - 27 / 20) < 3 / 10 ∧
        (dist - 27 / 20) / (7 / 2 - 27 / 20) > 0
    · rw [if_pos hvib]
      have hi0 : (0:ℚ) ≤ 8 / 100 *
          (1 - (dist - 27 / 20) / (7 / 2 - 27 / 20) / (3 / 10)) := by
        nlinarith [hvib.1]
      have hi1 : 8 / 100 *
          (1 - (dist - 27 / 20) / (7 / 2 - 27 / 20) / (3 / 10)) ≤ 8 / 100 := by
        nlinarith [hvib.2]
      simp only [Vec3.add, Vec3.smul]
      exact ⟨jitter_component_bound _ _ _ hi0 hi1 hrx,
        jitter_component_bound _ _ _ hi0 hi1 hry,
        jitter_component_bound _ _ _ hi0 hi1 hrz⟩
    · rw [if_neg hvib]
      simp only [Vec3.smul]
      norm_num
  · intro hlo hhi hr3
    have hq0 : (0:ℚ) ≤ (dist - 27 / 20) / (7 / 2 - 27 / 20) := by
      apply div_nonneg <;> linarith
    have hq1 : (dist - 27 / 20) / (7 / 2 - 27 / 20) < 1 := by
      rw [div_lt_one (by norm_num)]
      linarith
    have hmax : max 0 (dist - 27 / 20) = dist - 27 / 20 :=
      max_eq_right (by linarith)
    have hmaxq : max 0 ((dist - 27 / 20) / (7 / 2 - 27 / 20)) =
        (dist - 27 / 20) / (7 / 2 - 27 / 20) := max_eq_right hq0
    have hminq : min 1 ((dist - 27 / 20) / (7 / 2 - 27 / 20)) =
        (dist - 27 / 20) / (7 / 2 - 27 / 20) := min_eq_right hq1.le
    rw [hpos, Vec3.add_sub_cancel_left, hmaxq, hminq]
    simp only [neutralUpdate, if_pos hhi, hmax]
    rw [if_neg]
    intro hvib
    exact absurd hvib.1 (not_lt.mpr hr3)
  · intro hstop
    subst hstop
    rw [hpos, Vec3.add_sub_cancel_left]
    norm_num [neutralUpdate]
  · intro hfar
    rw [hpos, Vec3.add_sub_cancel_left]
    simp only [neutralUpdate]
    rw [if_neg (not_lt.mpr hfar)]

/-- A particle held exactly at the NEUTRAL stopping radius `27/20`. -/
def stoppedParticle : ProjectileData :=
  { id := 1, position := ⟨27 / 20, 0, 0⟩, velocity := ⟨-1, 0, 0⟩,
    active := true, color := "#fbbf24", scale := 1 }

/-- Square-root table for the NEUTRAL run at the stopping radius: squared
distance `729/400`. -/
def sqrtNeutralRun : ℚ → ℚ := fun q => if q = 729 / 400 then 27 / 20 else 0

/-- C6 witness: the slowdown theorem at a particle held exactly at the
stopping radius — the delta is exactly `0.0001 * dt * velocity`. -/
theorem neutral_zeno_slowdown_witness :
    Vec3.sub (updateProjectile sqrtNeutralRun TechniqueType.NEUTRAL 0 false
        (1 / 10) ⟨0, 0, 0⟩ stoppedParticle).position
        stoppedParticle.position =
      Vec3.smul (1 / 10000) (Vec3.smul (1 / 10) stoppedParticle.velocity) :=
  (neutral_zeno_slowdown sqrtNeutralRun 0 false (1 / 10) ⟨0, 0, 0⟩
    stoppedParticle (27 / 20) rfl (by norm_num)
    (by norm_num [stoppedParticle, Vec3.lengthSq])
    (by norm_num [stoppedParticle, sqrtNeutralRun, Vec3.lengthSq])
    (by norm_num) (by norm_num) (by norm_num)).2.2.1 rfl

/-- C7.  BLUE density shrink: the tick multiplies a particle's scale by
`max(0.8, 0.99 - min(trappedCount - 8, 50) * 0.005)` exactly when the
tick-start trapped count exceeds 8 and the particle's distance is below 2.5
(and by 1 otherwise); with `trappedCount = 20` the multiplier is `0.93`; with
`trappedCount ≤ 8` the scale is untouched; and the trapped-count aggregate is
the number of pool particles that are active with squared distance below
`6.25` at tick start. -/
theorem blue_density_shrink (sqrtF : ℚ → ℚ) (trapped : ℕ) (crowded : Bool)
    (dt : ℚ) (rnd : Vec3) (p : ProjectileData) (dist : ℚ)
    (hactive : p.active = true)
    (hd0 : 0 ≤ dist) (hdsq : dist * dist = p.position.lengthSq)
    (hsqrt : sqrtF p.position.lengthSq = dist) :
    ((updateProjectile sqrtF TechniqueType.BLUE trapped crowded dt rnd
        p).scale = p.scale *
      (if 8 < trapped ∧ dist < 5 / 2 then
        max (8 / 10) (99 / 100 - min ((trapped : ℚ) - 8) 50 * (5 / 1000))
      else 1)) ∧
    (trapped = 20 → dist < 5 / 2 →
      (updateProjectile sqrtF TechniqueType.BLUE trapped crowded dt rnd
        p).scale = p.scale * (93 / 100)) ∧
    (trapped ≤ 8 →
      (updateProjectile sqrtF TechniqueType.BLUE trapped crowded dt rnd
        p).scale = p.scale) ∧
    (∀ prev : List ProjectileData,
      trappedCountOf TechniqueType.BLUE prev =
        (prev.filter
          (fun q => q.active && decide (q.position.lengthSq < 25 / 4))).length) := by
  have hscale : (updateProjectile sqrtF TechniqueType.BLUE trapped crowded dt
      rnd p).scale =
      (blueUpdate sqrtF trapped dist dt rnd p.position p.velocity
        (Vec3.smul dt p.velocity) p.scale p.active).scale := by
    simp [updateProjectile, finalizeUpdate, hactive, hsqrt]
  have hform : (blueUpdate sqrtF trapped dist dt rnd p.position p.velocity
      (Vec3.smul dt p.velocity) p.scale p.active).scale = p.scale *
      (if 8 < trapped ∧ dist < 5 / 2 then
        max (8 / 10) (99 / 100 - min ((trapped : ℚ) - 8) 50 * (5 / 1000))
      else 1) := by
    simp only [blueUpdate]
    rw [if_congr (iff_of_eq (by norm_num) :
      (trapped > 8 ∧ dist < 2 + 1 / 2) ↔ (8 < trapped ∧ dist < 5 / 2)) rfl
      rfl]
    split_ifs with h
    · rfl
    · rw [mul_one]
  refine ⟨hscale.trans hform, ?_, ?_, ?_⟩
  · intro ht hdist
    subst ht
    rw [hscale, hform, if_pos ⟨by norm_num, hdist⟩]
    norm_num
  · intro ht
    rw [hscale, hform, if_neg]
    · rw [mul_one]
    · intro h
      omega
  · intro prev
    simp [trappedCountOf, List.countP_eq_length_filter]

/-- Counting with a predicate satisfied by the repeated element. -/
theorem countP_replicate_true {A : Type} (p : A → Bool) (a : A)
    (h : p a = true) (n : ℕ) :
    List.countP p (List.replicate n a) = n := by
  induction n with
  | zero => rfl
  | succ n ih =>
      rw [List.replicate_succ, List.countP_cons, h, ih]
      simp

/-- A trapped BLUE particle: at rest at distance 1 from the origin. -/
def blueTrappedParticle : ProjectileData :=
  { id := 1, position := ⟨1, 0, 0⟩, velocity := ⟨0, 0, 0⟩,
    active := true, color := "#fbbf24", scale := 1 }

/-- C7 witness: the density-shrink theorem at a trapped particle with
`trappedCount = 20` — the multiplier is exactly `0.93`. -/
theorem blue_density_shrink_witness :
    (updateProjectile sqrtBlueRun TechniqueType.BLUE 20 false (1 / 10)
        ⟨0, 0, 0⟩ blueTrappedParticle).scale =
      blueTrappedParticle.scale * (93 / 100) :=
  (blue_density_shrink sqrtBlueRun 20 false (1 / 10) ⟨0, 0, 0⟩
    blueTrappedParticle 1 rfl (by norm_num)
    (by norm_num [blueTrappedParticle, Vec3.lengthSq])
    (by norm_num [blueTrappedParticle, sqrtBlueRun, Vec3.lengthSq])).2.1 rfl
    (by norm_num)

/-- C9 counterexample.  The BLUE shrink factor is NOT always in the open
interval `(0.8, 1]`: with a tick-start trapped count of 46 the factor is
exactly `max(0.8, 0.99 - 38 * 0.005) = 0.8`, so a particle of scale 1 leaves
the tick with scale exactly `4/5`, not strictly greater than `4/5`.  The
trapped count 46 is realised by an actual pool of 46 trapped particles. -/
theorem blue_shrink_factor_hits_floor :
    (updateProjectile sqrtBlueRun TechniqueType.BLUE
        (trappedCountOf TechniqueType.BLUE
          (List.replicate 46 blueTrappedParticle)) true (1 / 10) ⟨0, 0, 0⟩
        blueTrappedParticle).scale = 4 / 5 ∧
    ¬ (4 / 5 * blueTrappedParticle.scale <
        (updateProjectile sqrtBlueRun TechniqueType.BLUE
          (trappedCountOf TechniqueType.BLUE
            (List.replicate 46 blueTrappedParticle)) true (1 / 10) ⟨0, 0, 0⟩
          blueTrappedParticle).scale) := by
  have hp : (blueTrappedParticle.active &&
      decide (blueTrappedParticle.position.lengthSq < 25 / 4)) = true := by
    simp only [blueTrappedParticle, Vec3.lengthSq, Bool.true_and,
      decide_eq_true_eq]
    norm_num
  have hcnt : trappedCountOf TechniqueType.BLUE
      (List.replicate 46 blueTrappedParticle) = 46 := by
    simp only [trappedCountOf, if_pos rfl]
    exact countP_replicate_true _ _ hp 46
  rw [hcnt]
  have hs : (updateProjectile sqrtBlueRun TechniqueType.BLUE 46 true (1 / 10)
      ⟨0, 0, 0⟩ blueTrappedParticle).scale = 4 / 5 := by
    have := (blue_density_shrink sqrtBlueRun 46 true (1 / 10) ⟨0, 0, 0⟩
      blueTrappedParticle 1 rfl (by norm_num)
      (by norm_num [blueTrappedParticle, Vec3.lengthSq])
      (by norm_num [blueTrappedParticle, sqrtBlueRun, Vec3.lengthSq])).1
    rw [this, if_pos ⟨by norm_num, by norm_num⟩]
    norm_num [blueTrappedParticle]
  refine ⟨hs, ?_⟩
  rw [hs]
  norm_num [blueTrappedParticle]

/-- Scale component of the NEUTRAL branch. -/
theorem neutralUpdate_scale (crowded : Bool) (dist dt : ℚ) (rnd : Vec3)
    (vel mv : Vec3) (s : ℚ) (a : Bool) :
    (neutralUpdate crowded dist dt rnd vel mv s a).scale =
      if dist < 7 / 2 then
        (if crowded then
          (if max 0 (dist - 27 / 20) / (7 / 2 - 27 / 20) < 1 / 2 then
            s * (90 / 100) else s)
        else
          (if max 0 (dist - 27 / 20) / (7 / 2 - 27 / 20) < 1 / 10 then
            s * (995 / 1000) else s))
      else s := by
  simp only [neutralUpdate]
  split_ifs <;> rfl

/-- Scale component of the BLUE branch. -/
theorem blueUpdate_scale (sqrtF : ℚ → ℚ) (trapped : ℕ) (dist dt : ℚ)
    (rnd : Vec3) (cp cv mv : Vec3) (s : ℚ) (a : Bool) :
    (blueUpdate sqrtF trapped dist dt rnd cp cv mv s a).scale =
      if trapped > 8 ∧ dist < 2 + 1 / 2 then
        s * max (8 / 10) (99 / 100 - min ((trapped : ℚ) - 8) 50 * (5 / 1000))
      else s := by
  simp only [blueUpdate]

/-- Scale component of the RED branch: RED never rescales. -/
theorem redUpdate_scale (sqrtF : ℚ → ℚ) (dist dt : ℚ) (cp cv mv : Vec3)
    (s : ℚ) (a : Bool) :
    (redUpdate sqrtF dist dt cp cv mv s a).scale = s := by
  simp only [redUpdate]
  split_ifs <;> rfl

/-- Scale component of the PURPLE branch. -/
theorem purpleUpdate_scale (sqrtF : ℚ → ℚ) (dist distSq dt : ℚ) (rnd : Vec3)
    (cp cv mv : Vec3) (s : ℚ) (a : Bool) :
    (purpleUpdate sqrtF dist distSq dt rnd cp cv mv s a).scale =
      if dist < 5 / 2 then s * (92 / 100) else s := by
  simp only [purpleUpdate]

/-- Scale of an updated active NEUTRAL particle. -/
theorem updateProjectile_scale_neutral (sqrtF : ℚ → ℚ) (trapped : ℕ)
    (crowded : Bool) (dt : ℚ) (rnd : Vec3) (p : ProjectileData)
    (hact : p.active = true) :
    (updateProjectile sqrtF TechniqueType.NEUTRAL trapped crowded dt rnd
        p).scale =
      (neutralUpdate crowded (sqrtF p.position.lengthSq) dt rnd p.velocity
        (Vec3.smul dt p.velocity) p.scale p.active).scale := by
  unfold updateProjectile
  rw [if_neg (by simp [hact])]
  rfl

/-- Scale of an updated active BLUE particle. -/
theorem updateProjectile_scale_blue (sqrtF : ℚ → ℚ) (trapped : ℕ)
    (crowded : Bool) (dt : ℚ) (rnd : Vec3) (p : ProjectileData)
    (hact : p.active = true) :
    (updateProjectile sqrtF TechniqueType.BLUE trapped crowded dt rnd
        p).scale =
      (blueUpdate sqrtF trapped (sqrtF p.position.lengthSq) dt rnd p.position
        p.velocity (Vec3.smul dt p.velocity) p.scale p.active).scale := by
  unfold updateProjectile
  rw [if_neg (by simp [hact])]
  rfl

/-- Scale of an updated active RED particle. -/
theorem updateProjectile_scale_red (sqrtF : ℚ → ℚ) (trapped : ℕ)
    (crowded : Bool) (dt : ℚ) (rnd : Vec3) (p : ProjectileData)
    (hact : p.active = true) :
    (updateProjectile sqrtF TechniqueType.RED trapped crowded dt rnd
        p).scale =
      (redUpdate sqrtF (sqrtF p.position.lengthSq) dt p.position p.velocity
        (Vec3.smul dt p.velocity) p.scale p.active).scale := by
  unfold updateProjectile
  rw [if_neg (by simp [hact])]
  rfl

/-- Scale of an updated active PURPLE particle. -/
theorem updateProjectile_scale_purple (sqrtF : ℚ → ℚ) (trapped : ℕ)
    (crowded : Bool) (dt : ℚ) (rnd : Vec3) (p : ProjectileData)
    (hact : p.active = true) :
    (updateProjectile sqrtF TechniqueType.PURPLE trapped crowded dt rnd
        p).scale =
      (purpleUpdate sqrtF (sqrtF p.position.lengthSq) p.position.lengthSq dt
        rnd p.position p.velocity (Vec3.smul dt p.velocity) p.scale
        p.active).scale := by
  unfold updateProjectile
  rw [if_neg (by simp [hact])]
  rfl

/-- Multiplying a nonnegative scale by a factor between `4/5` and 1 keeps it
between `4/5` of itself and itself. -/
theorem scale_mul_factor_bounds (s f : ℚ) (hs : 0 ≤ s) (h1 : 4 / 5 ≤ f)
    (h2 : f ≤ 1) : 4 / 5 * s ≤ s * f ∧ s * f ≤ s := by
  constructor <;> nlinarith

set_option maxHeartbeats 1000000 in
/-- C9 amended.  Every particle spawns with scale 1, and one tick multiplies
the scale by a single factor in the CLOSED interval `[0.8, 1]` (the BLUE
density factor can reach `0.8` exactly): for every technique and every
nonnegative starting scale, the updated scale lies between `4/5` of the old
scale and the old scale — so scale is non-increasing and stays in `(0, 1]`
when it starts there. -/
theorem scale_non_increasing_bounded :
    (∀ (sqrtF : ℚ → ℚ) (technique : TechniqueType) (trapped : ℕ)
        (crowded : Bool) (dt : ℚ) (rnd : Vec3) (p : ProjectileData),
      0 ≤ p.scale →
        4 / 5 * p.scale ≤
            (updateProjectile sqrtF technique trapped crowded dt rnd
              p).scale ∧
          (updateProjectile sqrtF technique trapped crowded dt rnd p).scale ≤
            p.scale) ∧
    (∀ (sqrtF : ℚ → ℚ) (theme : Theme) (minSpeed maxSpeed : ℚ)
        (draws : SpawnDraws),
      (newProjectile sqrtF theme minSpeed maxSpeed draws).scale = 1) := by
  refine ⟨?_, ?_⟩
  swap
  · intro sqrtF theme minSpeed maxSpeed draws
    simp [newProjectile]
  intro sqrtF technique trapped crowded dt rnd p hs
  by_cases hact : p.active = true
  · cases technique with
    | NEUTRAL =>
      rw [updateProjectile_scale_neutral sqrtF trapped crowded dt rnd p hact,
        neutralUpdate_scale]
      split_ifs <;>
        first
          | exact scale_mul_factor_bounds _ _ hs (by norm_num) (by norm_num)
          | exact ⟨by nlinarith, le_rfl⟩
    | BLUE =>
      rw [updateProjectile_scale_blue sqrtF trapped crowded dt rnd p hact,
        blueUpdate_scale]
      split_ifs with h
      · have h8 : (8 : ℚ) < (trapped : ℚ) := by exact_mod_cast h.1
        refine scale_mul_factor_bounds _ _ hs
          (le_trans (by norm_num) (le_max_left (8 / 10) _)) ?_
        refine max_le (by norm_num) ?_
        have hmin : (0 : ℚ) ≤ min ((trapped : ℚ) - 8) 50 :=
          le_min (by linarith) (by norm_num)
        nlinarith
      · exact ⟨by nlinarith, le_rfl⟩
    | RED =>
      rw [updateProjectile_scale_red sqrtF trapped crowded dt rnd p hact,
        redUpdate_scale]
      exact ⟨by nlinarith, le_rfl⟩
    | PURPLE =>
      rw [updateProjectile_scale_purple sqrtF trapped crowded dt rnd p hact,
        purpleUpdate_scale]
      split_ifs <;>
        first
          | exact scale_mul_factor_bounds _ _ hs (by norm_num) (by norm_num)
          | exact ⟨by nlinarith, le_rfl⟩
  · have hupd : updateProjectile sqrtF technique trapped crowded dt rnd p
        = p := by
      unfold updateProjectile
      rw [if_pos (by revert hact; cases p.active <;> simp)]
    rw [hupd]
    exact ⟨by nlinarith, le_rfl⟩

/-- C9 witness: the scale-bound theorem at a trapped BLUE particle of scale 1
(factor `0.8` exactly) and at a fresh spawn. -/
theorem scale_non_increasing_bounded_witness :
    (4 / 5 * blueTrappedParticle.scale ≤
        (updateProjectile sqrtBlueRun TechniqueType.BLUE 46 true (1 / 10)
          ⟨0, 0, 0⟩ blueTrappedParticle).scale ∧
      (updateProjectile sqrtBlueRun TechniqueType.BLUE 46 true (1 / 10)
        ⟨0, 0, 0⟩ blueTrappedParticle).scale ≤ blueTrappedParticle.scale) ∧
    (newProjectile sqrtSpawnRun Theme.dark 1 2 rapidDraws).scale = 1 :=
  ⟨scale_non_increasing_bounded.1 sqrtBlueRun TechniqueType.BLUE 46 true
      (1 / 10) ⟨0, 0, 0⟩ blueTrappedParticle
      (by norm_num [blueTrappedParticle]),
    scale_non_increasing_bounded.2 sqrtSpawnRun Theme.dark 1 2 rapidDraws⟩

/-!
The `JsNum` embedding: JavaScript numbers as exact rationals extended with the
IEEE-754 special values `NaN`, `Infinity` and `-Infinity` (signed zero is not
modelled; no division in the code distinguishes `0` from `-0`).  It is used to
verify the non-finite-position safeguards, so the arithmetic below implements
the IEEE special-value rules exactly while keeping finite arithmetic exact.
Constant expressions such as `coreRadius + 1.0` are folded to their (finite)
literal values.
-/

/-- A JavaScript number: finite (exact rational), NaN, or a signed
infinity. -/
inductive JsNum where
  | fin (q : ℚ)
  | nan
  | inf
  | ninf
deriving DecidableEq

open JsNum in
/-- IEEE addition. -/
def jadd : JsNum → JsNum → JsNum
  | fin a, fin b => fin (a + b)
  | fin _, inf => inf
  | fin _, ninf => ninf
  | fin _, nan => nan
  | inf, fin _ => inf
  | inf, inf => inf
  | inf, ninf => nan
  | inf, nan => nan
  | ninf, fin _ => ninf
  | ninf, inf => nan
  | ninf, ninf => ninf
  | ninf, nan => nan
  | nan, _ => nan

open JsNum in
/-- IEEE negation. -/
def jneg : JsNum → JsNum
  | fin a => fin (-a)
  | inf => ninf
  | ninf => inf
  | nan => nan

/-- IEEE subtraction. -/
def jsub (a b : JsNum) : JsNum := jadd a (jneg b)

open JsNum in
/-- IEEE multiplication (`0 * Infinity = NaN`). -/
def jmul : JsNum → JsNum → JsNum
  | fin a, fin b => fin (a * b)
  | fin a, inf => if 0 < a then inf else if a < 0 then ninf else nan
  | fin a, ninf => if 0 < a then ninf else if a < 0 then inf else nan
  | fin _, nan => nan
  | inf, fin b => if 0 < b then inf else if b < 0 then ninf else nan
  | inf, inf => inf
  | inf, ninf => ninf
  | inf, nan => nan
  | ninf, fin b => if 0 < b then ninf else if b < 0 then inf else nan
  | ninf, inf => ninf
  | ninf, ninf => inf
  | ninf, nan => nan
  | nan, _ => nan

open JsNum in
/-- IEEE division (zero divisor gives a signed infinity or NaN). -/
def jdiv : JsNum → JsNum → JsNum
  | fin a, fin b =>
      if b = 0 then (if 0 < a then inf else if a < 0 then ninf else nan)
      else fin (a / b)
  | fin _, inf => fin 0
  | fin _, ninf => fin 0
  | fin _, nan => nan
  | inf, fin b => if 0 ≤ b then inf else ninf
  | inf, inf => nan
  | inf, ninf => nan
  | inf, nan => nan
  | ninf, fin b => if 0 ≤ b then ninf else inf
  | ninf, inf => nan
  | ninf, ninf => nan
  | ninf, nan => nan
  | nan, _ => nan

open JsNum in
/-- IEEE strict ordering (every comparison with NaN is false). -/
def jlt : JsNum → JsNum → Bool
  | fin a, fin b => decide (a < b)
  | fin _, inf => true
  | fin _, ninf => false
  | fin _, nan => false
  | inf, _ => false
  | ninf, fin _ => true
  | ninf, inf => true
  | ninf, ninf => false
  | ninf, nan => false
  | nan, _ => false

open JsNum in
/-- `Math.max` (NaN absorbing). -/
def jmax : JsNum → JsNum → JsNum
  | fin a, fin b => fin (max a b)
  | fin _, inf => inf
  | fin a, ninf => fin a
  | fin _, nan => nan
  | inf, nan => nan
  | inf, _ => inf
  | ninf, fin b => fin b
  | ninf, inf => inf
  | ninf, ninf => ninf
  | ninf, nan => nan
  | nan, _ => nan

open JsNum in
/-- `Math.min` (NaN absorbing). -/
def jmin : JsNum → JsNum → JsNum
  | fin a, fin b => fin (min a b)
  | fin a, inf => fin a
  | fin _, ninf => ninf
  | fin _, nan => nan
  | ninf, nan => nan
  | ninf, _ => ninf
  | inf, fin b => fin b
  | inf, ninf => ninf
  | inf, inf => inf
  | inf, nan => nan
  | nan, _ => nan

/-- `Math.pow` with a natural exponent (the code uses exponents 3 and 4). -/
def jpowNat (x : JsNum) : ℕ → JsNum
  | 0 => JsNum.fin 1
  | n + 1 => jmul x (jpowNat x n)

open JsNum in
/-- `isNaN`. -/
def jIsNaN : JsNum → Bool
  | nan => true
  | _ => false

open JsNum in
/-- `isFinite`. -/
def jIsFinite : JsNum → Bool
  | fin _ => true
  | _ => false

/-- A THREE.Vector3 with JavaScript-number components. -/
structure JsVec3 where
  x : JsNum
  y : JsNum
  z : JsNum
deriving DecidableEq

/-- Componentwise addition. -/
def JsVec3.add (a b : JsVec3) : JsVec3 :=
  ⟨jadd a.x b.x, jadd a.y b.y, jadd a.z b.z⟩

/-- Componentwise subtraction. -/
def JsVec3.sub (a b : JsVec3) : JsVec3 :=
  ⟨jsub a.x b.x, jsub a.y b.y, jsub a.z b.z⟩

/-- Negation. -/
def JsVec3.neg (a : JsVec3) : JsVec3 := ⟨jneg a.x, jneg a.y, jneg a.z⟩

/-- Scalar multiplication. -/
def JsVec3.smul (k : JsNum) (a : JsVec3) : JsVec3 :=
  ⟨jmul k a.x, jmul k a.y, jmul k a.z⟩

/-- Dot product. -/
def JsVec3.dot (a b : JsVec3) : JsNum :=
  jadd (jadd (jmul a.x b.x) (jmul a.y b.y)) (jmul a.z b.z)

/-- Squared length. -/
def JsVec3.lengthSq (a : JsVec3) : JsNum :=
  jadd (jadd (jmul a.x a.x) (jmul a.y a.y)) (jmul a.z a.z)

/-- THREE.js `normalize`: `divideScalar(this.length() || 1)` — the JavaScript
`||` treats both `0` and `NaN` as falsy — and `divideScalar(s)` is
`multiplyScalar(1 / s)`. -/
def JsVec3.normalize (sqrtF : JsNum → JsNum) (a : JsVec3) : JsVec3 :=
  let l := sqrtF a.lengthSq
  let d := if l = JsNum.fin 0 ∨ l = JsNum.nan then JsNum.fin 1 else l
  JsVec3.smul (jdiv (JsNum.fin 1) d) a

/-- The `ProjectileData` record over JavaScript numbers. -/
structure JsProjectile where
  id : ℚ
  position : JsVec3
  velocity : JsVec3
  active : Bool
  color : String
  scale : JsNum
deriving DecidableEq

/-- Branch result over JavaScript numbers. -/
structure JsUpdateResult where
  velocity : JsVec3
  moveVec : JsVec3
  scale : JsNum
  active : Bool
deriving DecidableEq

open JsNum in
/-- NEUTRAL branch (lines 209-241) over JavaScript numbers. -/
def jsNeutralUpdate (isCrowded : Bool) (dist dt : JsNum) (rnd : JsVec3)
    (currentVelocity moveVec : JsVec3) (currentScale : JsNum)
    (active : Bool) : JsUpdateResult :=
  if jlt dist (fin (7 / 2)) then
    let d := jmax (fin 0) (jsub dist (fin (27 / 20)))
    let ratio := jdiv d (fin (43 / 20))
    let speedFactor := jpowNat ratio 3
    let moveVec1 := JsVec3.smul (jmax (fin (1 / 10000)) speedFactor) moveVec
    let moveVec2 :=
      if jlt ratio (fin (3 / 10)) && jlt (fin 0) ratio then
        let vibrationIntensity :=
          jmul (fin (8 / 100)) (jsub (fin 1) (jdiv ratio (fin (3 / 10))))
        JsVec3.add moveVec1 (JsVec3.smul vibrationIntensity rnd)
      else moveVec1
    let currentScale1 :=
      if isCrowded then
        (if jlt ratio (fin (1 / 2)) then jmul currentScale (fin (90 / 100))
         else currentScale)
      else
        (if jlt ratio (fin (1 / 10)) then jmul currentScale (fin (995 / 1000))
         else currentScale)
    ⟨currentVelocity, moveVec2, currentScale1, active⟩
  else ⟨currentVelocity, moveVec, currentScale, active⟩

open JsNum in
/-- BLUE branch (lines 242-286) over JavaScript numbers. -/
def jsBlueUpdate (sqrtF : JsNum → JsNum) (trappedCount : ℕ)
    (dist dt : JsNum) (rnd : JsVec3)
    (currentPos currentVelocity moveVec : JsVec3) (currentScale : JsNum)
    (active : Bool) : JsUpdateResult :=
  let currentVelocity1 :=
    if jlt dist (fin 15) then
      let pullDir :=
        if jlt (fin (1 / 10)) dist then
          JsVec3.neg (JsVec3.normalize sqrtF currentPos)
        else ⟨fin 0, fin 0, fin 0⟩
      JsVec3.add currentVelocity (JsVec3.smul (jmul (fin 20) dt) pullDir)
    else currentVelocity
  let currentVelocity2 :=
    if jlt dist (fin 3) then JsVec3.smul (fin (85 / 100)) currentVelocity1
    else currentVelocity1
  let moveVec1 :=
    if jlt dist (fin 3) then
      let closeness := jmax (fin 0) (jsub (fin 1) (jdiv dist (fin 3)))
      let shakeIntensity :=
        jadd (fin (5 / 100)) (jmul (jpowNat closeness 4) (fin (6 / 10)))
      JsVec3.add moveVec (JsVec3.smul shakeIntensity rnd)
    else moveVec
  let currentScale1 :=
    if trappedCount > 8 && jlt dist (fin (5 / 2)) then
      let shrinkFactor :=
        jsub (fin (99 / 100))
          (jmul (jmin (fin ((trappedCount : ℚ) - 8)) (fin 50))
            (fin (5 / 1000)))
      jmul currentScale (jmax (fin (8 / 10)) shrinkFactor)
    else currentScale
  let moveVec2 := JsVec3.smul dt currentVelocity2
  let active1 := if jlt currentScale1 (fin (1 / 10)) then false else active
  ⟨currentVelocity2, moveVec2, currentScale1, active1⟩

open JsNum in
/-- RED branch (lines 288-336) over JavaScript numbers, with the
`!isNaN(totalForce) && isFinite(totalForce)` safeguard and the same in-place
`dirOut` aliasing as the rational embedding. -/
def jsRedUpdate (sqrtF : JsNum → JsNum) (dist dt : JsNum)
    (currentPos currentVelocity moveVec : JsVec3) (currentScale : JsNum)
    (active : Bool) : JsUpdateResult :=
  if jlt dist (fin (9 / 2)) then
    let dirOut :=
      if jlt (fin (1 / 100)) dist then JsVec3.normalize sqrtF currentPos
      else ⟨fin 1, fin 0, fin 0⟩
    let approachSpeed := jneg (JsVec3.dot currentVelocity dirOut)
    let rawDepth := jmax (fin 0) (jdiv (jsub dist (fin (3 / 2))) (fin 3))
    let depth := jsub (fin 1) rawDepth
    let intensity := jpowNat depth 3
    let staticForce := jmul (fin 80) intensity
    let reflectionForce :=
      if jlt (fin 0) approachSpeed then
        jmul approachSpeed (jadd (fin 1) (jmul (fin 40) intensity))
      else fin 0
    let totalForce := jmul (jadd staticForce reflectionForce) dt
    let forceOk := !(jIsNaN totalForce) && jIsFinite totalForce
    let dirOut1 := if forceOk then JsVec3.smul totalForce dirOut else dirOut
    let currentVelocity1 :=
      if forceOk then JsVec3.add currentVelocity dirOut1 else currentVelocity
    let moveVec1 := if forceOk then JsVec3.smul dt currentVelocity1 else moveVec
    if jlt dist (fin (17 / 10)) then
      let pushOut := JsVec3.smul (fin (17 / 10)) dirOut1
      let pushOut1 := JsVec3.sub pushOut currentPos
      let moveVec2 := JsVec3.add moveVec1 pushOut1
      let currentVelocity2 :=
        if jlt (fin 0) approachSpeed then
          let currentSpeed := sqrtF (JsVec3.lengthSq currentVelocity1)
          JsVec3.smul (jmul currentSpeed (fin (8 / 10))) pushOut1
        else currentVelocity1
      ⟨currentVelocity2, moveVec2, currentScale, active⟩
    else ⟨currentVelocity1, moveVec1, currentScale, active⟩
  else ⟨currentVelocity, moveVec, currentScale, active⟩

open JsNum in
/-- PURPLE branch (lines 337-364) over JavaScript numbers. -/
def jsPurpleUpdate (sqrtF : JsNum → JsNum) (dist distSq dt : JsNum)
    (rnd : JsVec3) (currentPos currentVelocity moveVec : JsVec3)
    (currentScale : JsNum) (active : Bool) : JsUpdateResult :=
  let safeDistSq := jmax (fin (1 / 10)) distSq
  let pullStrength := jdiv (fin 30) (jadd safeDistSq (fin (1 / 10)))
  let pullDir :=
    if jlt (fin (1 / 10)) dist then
      JsVec3.neg (JsVec3.normalize sqrtF currentPos)
    else ⟨fin 0, fin 0, fin 0⟩
  let currentVelocity1 :=
    JsVec3.add currentVelocity (JsVec3.smul (jmul pullStrength dt) pullDir)
  let moveVec1 := JsVec3.smul dt currentVelocity1
  let inCore := jlt dist (fin (5 / 2))
  let currentVelocity2 :=
    if inCore then JsVec3.smul (fin (92 / 100)) currentVelocity1
    else currentVelocity1
  let moveVec2 :=
    if inCore then JsVec3.smul (fin (92 / 100)) moveVec1 else moveVec1
  let moveVec3 :=
    if inCore then
      let vibration :=
        jmul (fin (2 / 10)) (jsub (fin 1) (jdiv dist (fin (5 / 2))))
      JsVec3.add moveVec2 (JsVec3.smul vibration rnd)
    else moveVec2
  let currentScale1 :=
    if inCore then jmul currentScale (fin (92 / 100)) else currentScale
  let active1 := if jlt currentScale1 (fin (5 / 100)) then false else active
  let active2 := if jlt dist (fin (1 / 2)) then false else active1
  ⟨currentVelocity2, moveVec3, currentScale1, active2⟩

open JsNum in
/-- The technique dispatch of lines 209-364 over JavaScript numbers. -/
def jsBranchUpdate (sqrtF : JsNum → JsNum) (technique : TechniqueType)
    (trappedCount : ℕ) (isCrowded : Bool) (dt : JsNum) (rnd : JsVec3)
    (p : JsProjectile) : JsUpdateResult :=
  let distSq := p.position.lengthSq
  let dist := sqrtF distSq
  let moveVec := JsVec3.smul dt p.velocity
  match technique with
  | TechniqueType.NEUTRAL =>
      jsNeutralUpdate isCrowded dist dt rnd p.velocity moveVec p.scale
        p.active
  | TechniqueType.BLUE =>
      jsBlueUpdate sqrtF trappedCount dist dt rnd p.position p.velocity
        moveVec p.scale p.active
  | TechniqueType.RED =>
      jsRedUpdate sqrtF dist dt p.position p.velocity moveVec p.scale p.active
  | TechniqueType.PURPLE =>
      jsPurpleUpdate sqrtF dist distSq dt rnd p.position p.velocity moveVec
        p.scale p.active

open JsNum in
/-- Lines 366-377 over JavaScript numbers: integrate, bounds check,
minimum-scale check, final NaN check. -/
def jsFinalizeUpdate (sqrtF : JsNum → JsNum) (p : JsProjectile)
    (r : JsUpdateResult) : JsProjectile :=
  let newPos := JsVec3.add p.position r.moveVec
  let active1 :=
    if jlt (fin 30) (sqrtF newPos.lengthSq) then false else r.active
  let active2 := if jlt r.scale (fin (1 / 100)) then false else active1
  let active3 :=
    if jIsNaN newPos.x || jIsNaN newPos.y || jIsNaN newPos.z then false
    else active2
  { p with position := newPos, velocity := r.velocity, active := active3,
           scale := r.scale }

/-- The per-particle body (lines 191-377) over JavaScript numbers, including
the early isNaN-position safeguard of lines 195-198. -/
def jsUpdateProjectile (sqrtF : JsNum → JsNum) (technique : TechniqueType)
    (trappedCount : ℕ) (isCrowded : Bool) (dt : JsNum) (rnd : JsVec3)
    (p : JsProjectile) : JsProjectile :=
  if p.active = false then p
  else if jIsNaN p.position.x || jIsNaN p.position.y || jIsNaN p.position.z
  then { p with active := false }
  else
    jsFinalizeUpdate sqrtF p
      (jsBranchUpdate sqrtF technique trappedCount isCrowded dt rnd p)

/-- The physics update (lines 175-379) over JavaScript numbers. -/
def jsPhysicsUpdate (sqrtF : JsNum → JsNum) (technique : TechniqueType)
    (dt : JsNum) (rnd : ℕ → JsVec3) (prev : List JsProjectile) :
    List JsProjectile :=
  let trappedCount :=
    if technique = TechniqueType.BLUE then
      prev.countP
        (fun p => p.active && jlt p.position.lengthSq (JsNum.fin (25 / 4)))
    else 0
  let isCrowded := decide (prev.length > 40)
  ((prev.enum.map fun ip =>
      jsUpdateProjectile sqrtF technique trappedCount isCrowded dt (rnd ip.1)
        ip.2).filter
    (fun p => p.active))

/-- A JavaScript number that is a nonnegative rational or `Infinity` — the
possible values of squares and sums of squares of non-NaN numbers. -/
def NonnegOrInf (a : JsNum) : Prop :=
  (∃ q : ℚ, 0 ≤ q ∧ a = JsNum.fin q) ∨ a = JsNum.inf

/-- Adding anything to a non-finite, non-NaN number never yields a finite
number. -/
theorem jIsFinite_jadd_false (a b : JsNum) (h1 : jIsNaN a = false)
    (h2 : jIsFinite a = false) : jIsFinite (jadd a b) = false := by
  cases a <;> cases b <;> simp_all [jadd, jIsNaN, jIsFinite]

/-- The square of a non-finite, non-NaN number is `Infinity`. -/
theorem jmul_self_inf (a : JsNum) (h1 : jIsNaN a = false)
    (h2 : jIsFinite a = false) : jmul a a = JsNum.inf := by
  cases a <;> simp_all [jmul, jIsNaN, jIsFinite]

/-- The square of a non-NaN number is a nonnegative rational or infinite. -/
theorem sq_nonnegOrInf (a : JsNum) (h : jIsNaN a = false) :
    NonnegOrInf (jmul a a) := by
  cases a with
  | fin q => exact Or.inl ⟨q * q, mul_self_nonneg q, rfl⟩
  | nan => simp [jIsNaN] at h
  | inf => exact Or.inr rfl
  | ninf => exact Or.inr rfl

/-- Sums of nonnegative-or-infinite numbers stay nonnegative-or-infinite. -/
theorem jadd_nonnegOrInf {a b : JsNum} (ha : NonnegOrInf a)
    (hb : NonnegOrInf b) : NonnegOrInf (jadd a b) := by
  rcases ha with ⟨q, hq, rfl⟩ | rfl <;> rcases hb with ⟨r, hr, rfl⟩ | rfl
  · exact Or.inl ⟨q + r, by linarith, rfl⟩
  · exact Or.inr rfl
  · exact Or.inr rfl
  · exact Or.inr rfl

/-- A sum of nonnegative-or-infinite numbers with an infinite summand is
`Infinity`. -/
theorem jadd_eq_inf {a b : JsNum} (ha : NonnegOrInf a) (hb : NonnegOrInf b)
    (h : a = JsNum.inf ∨ b = JsNum.inf) : jadd a b = JsNum.inf := by
  rcases ha with ⟨q, hq, rfl⟩ | rfl <;> rcases hb with ⟨r, hr, rfl⟩ | rfl <;>
    simp_all [jadd]

/-- The squared length of a vector with non-NaN components, at least one of
which is non-finite, is `Infinity`. -/
theorem lengthSq_inf (v : JsVec3) (hx : jIsNaN v.x = false)
    (hy : jIsNaN v.y = false) (hz : jIsNaN v.z = false)
    (h : jIsFinite v.x = false ∨ jIsFinite v.y = false ∨
      jIsFinite v.z = false) :
    v.lengthSq = JsNum.inf := by
  have nx := sq_nonnegOrInf v.x hx
  have ny := sq_nonnegOrInf v.y hy
  have nz := sq_nonnegOrInf v.z hz
  show jadd (jadd (jmul v.x v.x) (jmul v.y v.y)) (jmul v.z v.z) = JsNum.inf
  rcases h with h | h | h
  · exact jadd_eq_inf (jadd_nonnegOrInf nx ny) nz
      (Or.inl (jadd_eq_inf nx ny (Or.inl (jmul_self_inf _ hx h))))
  · exact jadd_eq_inf (jadd_nonnegOrInf nx ny) nz
      (Or.inl (jadd_eq_inf nx ny (Or.inr (jmul_self_inf _ hy h))))
  · exact jadd_eq_inf (jadd_nonnegOrInf nx ny) nz
      (Or.inr (jmul_self_inf _ hz h))

/-- Active flag produced by the shared finalisation of lines 366-377. -/
theorem jsFinalizeUpdate_active (sqrtF : JsNum → JsNum) (p : JsProjectile)
    (r : JsUpdateResult) :
    (jsFinalizeUpdate sqrtF p r).active =
      if jIsNaN (jadd p.position.x r.moveVec.x) ||
          jIsNaN (jadd p.position.y r.moveVec.y) ||
          jIsNaN (jadd p.position.z r.moveVec.z) then false
      else if jlt r.scale (JsNum.fin (1 / 100)) then false
      else if jlt (JsNum.fin 30)
          (sqrtF (JsVec3.lengthSq (JsVec3.add p.position r.moveVec))) then
        false
      else r.active := rfl

/-- Whatever a technique branch computed, the finalisation deactivates every
particle whose tick-start position had a non-finite (non-NaN) component:
either a NaN reaches the final NaN check or the squared length is infinite
and the bounds check fires. -/
theorem jsFinalize_inactive_of_nonfinite (sqrtF : JsNum → JsNum)
    (hinf : sqrtF JsNum.inf = JsNum.inf) (p : JsProjectile)
    (hx : jIsNaN p.position.x = false) (hy : jIsNaN p.position.y = false)
    (hz : jIsNaN p.position.z = false)
    (hnf : jIsFinite p.position.x = false ∨ jIsFinite p.position.y = false ∨
      jIsFinite p.position.z = false)
    (r : JsUpdateResult) : (jsFinalizeUpdate sqrtF p r).active = false := by
  by_cases hn : (jIsNaN (jadd p.position.x r.moveVec.x) ||
      jIsNaN (jadd p.position.y r.moveVec.y) ||
      jIsNaN (jadd p.position.z r.moveVec.z)) = true
  · rw [jsFinalizeUpdate_active, if_pos hn]
  · have hn' : (jIsNaN (jadd p.position.x r.moveVec.x) ||
        jIsNaN (jadd p.position.y r.moveVec.y) ||
        jIsNaN (jadd p.position.z r.moveVec.z)) = false := by
      revert hn
      cases jIsNaN (jadd p.position.x r.moveVec.x) ||
        jIsNaN (jadd p.position.y r.moveVec.y) ||
        jIsNaN (jadd p.position.z r.moveVec.z) <;> simp
    have hcomps := Bool.or_eq_false_iff.mp hn'
    have hcomps1 := Bool.or_eq_false_iff.mp hcomps.1
    have hls : (JsVec3.add p.position r.moveVec).lengthSq = JsNum.inf := by
      apply lengthSq_inf _ hcomps1.1 hcomps1.2 hcomps.2
      rcases hnf with h | h | h
      · exact Or.inl (jIsFinite_jadd_false _ _ hx h)
      · exact Or.inr (Or.inl (jIsFinite_jadd_false _ _ hy h))
      · exact Or.inr (Or.inr (jIsFinite_jadd_false _ _ hz h))
    rw [jsFinalizeUpdate_active, if_neg (by simp [hn']), hls, hinf]
    have hlt : jlt (JsNum.fin 30) JsNum.inf = true := rfl
    rw [hlt]
    split_ifs with h1 h2
    · rfl
    · rfl
    · exact absurd rfl h2

/-- C3.  Non-finite position recovery: for every technique, a particle whose
position has any non-finite component (NaN or an infinity) at the start of a
tick ends the tick with `active = false` — via the early isNaN guard for NaN
components, which returns the particle with only its active flag flipped, or
via the bounds / final-NaN checks for infinite components — and the pool
produced by the physics update contains only active particles, so the
particle is absent from the pool after the tick. -/
theorem nonfinite_position_removed (sqrtF : JsNum → JsNum)
    (hinf : sqrtF JsNum.inf = JsNum.inf) (technique : TechniqueType)
    (trapped : ℕ) (crowded : Bool) (dt : JsNum) (rnd : JsVec3)
    (p : JsProjectile) (hact : p.active = true)
    (hnotfin : (jIsFinite p.position.x && jIsFinite p.position.y &&
      jIsFinite p.position.z) = false) :
    (jsUpdateProjectile sqrtF technique trapped crowded dt rnd p).active =
      false ∧
    ((jIsNaN p.position.x || jIsNaN p.position.y || jIsNaN p.position.z) =
        true →
      jsUpdateProjectile sqrtF technique trapped crowded dt rnd p =
        { p with active := false }) ∧
    (∀ (dt2 : JsNum) (rnd2 : ℕ → JsVec3) (pool : List JsProjectile)
        (q : JsProjectile),
      q ∈ jsPhysicsUpdate sqrtF technique dt2 rnd2 pool → q.active = true) :=
  by
  have hactne : ¬ (p.active = false) := by simp [hact]
  have hguard : jsUpdateProjectile sqrtF technique trapped crowded dt rnd p =
      if jIsNaN p.position.x || jIsNaN p.position.y || jIsNaN p.position.z
      then { p with active := false }
      else jsFinalizeUpdate sqrtF p
        (jsBranchUpdate sqrtF technique trapped crowded dt rnd p) := by
    unfold jsUpdateProjectile
    rw [if_neg hactne]
  refine ⟨?_, ?_, ?_⟩
  · by_cases hn : (jIsNaN p.position.x || jIsNaN p.position.y ||
        jIsNaN p.position.z) = true
    · rw [hguard, if_pos hn]
    · have hn' : (jIsNaN p.position.x || jIsNaN p.position.y ||
          jIsNaN p.position.z) = false := by
        revert hn
        cases jIsNaN p.position.x || jIsNaN p.position.y ||
          jIsNaN p.position.z <;> simp
      have hcomps := Bool.or_eq_false_iff.mp hn'
      have hcomps1 := Bool.or_eq_false_iff.mp hcomps.1
      rw [hguard, if_neg hn]
      apply jsFinalize_inactive_of_nonfinite sqrtF hinf p hcomps1.1
        hcomps1.2 hcomps.2
      rcases Bool.and_eq_false_iff.mp hnotfin with h | h
      · rcases Bool.and_eq_false_iff.mp h with h1 | h1
        · exact Or.inl h1
        · exact Or.inr (Or.inl h1)
      · exact Or.inr (Or.inr h)
  · intro hn
    rw [hguard, if_pos hn]
  · intro dt2 rnd2 pool q hq
    simp only [jsPhysicsUpdate, List.mem_filter] at hq
    exact hq.2

/-- A particle whose position was corrupted to `(Infinity, 0, 0)`. -/
def infProjectile : JsProjectile :=
  { id := 1, position := ⟨JsNum.inf, JsNum.fin 0, JsNum.fin 0⟩,
    velocity := ⟨JsNum.fin 0, JsNum.fin 0, JsNum.fin 0⟩, active := true,
    color := "#fbbf24", scale := JsNum.fin 1 }

/-- C3 witness: the non-finite-recovery theorem at a particle at
`(Infinity, 0, 0)` under NEUTRAL. -/
theorem nonfinite_position_removed_witness :
    (jsUpdateProjectile (fun _ => JsNum.inf) TechniqueType.NEUTRAL 0 false
        (JsNum.fin (1 / 10)) ⟨JsNum.fin 0, JsNum.fin 0, JsNum.fin 0⟩
        infProjectile).active = false :=
  (nonfinite_position_removed (fun _ => JsNum.inf) rfl TechniqueType.NEUTRAL
    0 false (JsNum.fin (1 / 10)) ⟨JsNum.fin 0, JsNum.fin 0, JsNum.fin 0⟩
    infProjectile rfl rfl).1

/-!
The heap embedding: THREE.js `Vector3` objects live in an explicit store and
every vector-method call of the per-particle body is a store operation
(`clone` and `new` allocate; `add`, `sub`, `multiplyScalar`, `negate`,
`normalize`, `copy` write their receiver in place; `length`, `lengthSq`,
`dot` only read).  It verifies that the physics update writes only to vectors
allocated during the tick, so the position/velocity objects of the previous
pool's records are never mutated, and the surviving records carry freshly
allocated vectors.  Values are the exact-rational idealisation (`Vec3`), with
`Math.sqrt` again a parameter.
-/

/-- A store of vectors: `size` cells are allocated; `data` holds their
values. -/
structure Heap where
  size : ℕ
  data : ℕ → Vec3

/-- Read a cell. -/
def Heap.read (h : Heap) (r : ℕ) : Vec3 := h.data r

/-- Overwrite a cell in place. -/
def Heap.write (h : Heap) (r : ℕ) (v : Vec3) : Heap :=
  ⟨h.size, fun i => if i = r then v else h.data i⟩

/-- Allocate a fresh cell holding `v`, returning its reference. -/
def Heap.alloc (h : Heap) (v : Vec3) : ℕ × Heap :=
  (h.size, ⟨h.size + 1, fun i => if i = h.size then v else h.data i⟩)

/-- `new THREE.Vector3(x, y, z)`. -/
def hNew (h : Heap) (x y z : ℚ) : ℕ × Heap := h.alloc ⟨x, y, z⟩

/-- `v.clone()`. -/
def hClone (h : Heap) (r : ℕ) : ℕ × Heap := h.alloc (h.read r)

/-- `v.add(w)` — mutates the receiver `r`. -/
def hAddV (h : Heap) (r o : ℕ) : Heap :=
  h.write r (Vec3.add (h.read r) (h.read o))

/-- `v.sub(w)` — mutates the receiver `r`. -/
def hSubV (h : Heap) (r o : ℕ) : Heap :=
  h.write r (Vec3.sub (h.read r) (h.read o))

/-- `v.multiplyScalar(k)` — mutates the receiver `r`. -/
def hMulScalar (h : Heap) (r : ℕ) (k : ℚ) : Heap :=
  h.write r (Vec3.smul k (h.read r))

/-- `v.negate()` — mutates the receiver `r`. -/
def hNegate (h : Heap) (r : ℕ) : Heap := h.write r (Vec3.neg (h.read r))

/-- `v.copy(w)` — mutates the receiver `r`. -/
def hCopy (h : Heap) (r o : ℕ) : Heap := h.write r (h.read o)

/-- `v.normalize()` — mutates the receiver `r`. -/
def hNormalize (sqrtF : ℚ → ℚ) (h : Heap) (r : ℕ) : Heap :=
  let l := sqrtF (Vec3.lengthSq (h.read r))
  h.write r (Vec3.smul (1 / (if l = 0 then 1 else l)) (h.read r))

/-- A `ProjectileData` record whose position and velocity are references into
the vector store. -/
structure HProjectile where
  id : ℚ
  position : ℕ
  velocity : ℕ
  active : Bool
  color : String
  scale : ℚ
deriving DecidableEq

/-- Result of a technique branch in the heap embedding: the reference held by
the `moveVec` local at the end of the branch, the scale and active locals,
and the store. -/
structure HBranchResult where
  moveVec : ℕ
  scale : ℚ
  active : Bool
  heap : Heap

/-- NEUTRAL branch (lines 209-241) over the store. -/
def heapNeutralUpdate (isCrowded : Bool) (dist dt : ℚ) (rnd : Vec3)
    (currentVelocity moveVec : ℕ) (currentScale : ℚ) (active : Bool)
    (h : Heap) : HBranchResult :=
  if dist < 7 / 2 then
    let d := max 0 (dist - 27 / 20)
    let ratio := d / (43 / 20)
    let h1 := hMulScalar h moveVec (max (1 / 10000) (ratio ^ 3))
    let h2 :=
      if ratio < 3 / 10 ∧ ratio > 0 then
        let vibrationIntensity := 8 / 100 * (1 - ratio / (3 / 10))
        let t := hNew h1 (rnd.x * vibrationIntensity)
          (rnd.y * vibrationIntensity) (rnd.z * vibrationIntensity)
        hAddV t.2 moveVec t.1
      else h1
    let currentScale1 :=
      if isCrowded then
        (if ratio < 1 / 2 then currentScale * (90 / 100) else currentScale)
      else
        (if ratio < 1 / 10 then currentScale * (995 / 1000) else currentScale)
    ⟨moveVec, currentScale1, active, h2⟩
  else ⟨moveVec, currentScale, active, h⟩

/-- BLUE branch (lines 242-286) over the store; line 284 rebinds the
`moveVec` local to a fresh clone of the velocity. -/
def heapBlueUpdate (sqrtF : ℚ → ℚ) (trappedCount : ℕ) (dist dt : ℚ)
    (rnd : Vec3) (currentPos currentVelocity moveVec : ℕ)
    (currentScale : ℚ) (active : Bool) (h : Heap) : HBranchResult :=
  let h1 :=
    if dist < 15 then
      let t :=
        if dist > 1 / 10 then
          let c := hClone h currentPos
          (c.1, hNegate (hNormalize sqrtF c.2 c.1) c.1)
        else hNew h 0 0 0
      let h' := hMulScalar t.2 t.1 (20 * dt)
      hAddV h' currentVelocity t.1
    else h
  let h2 := if dist < 3 then hMulScalar h1 currentVelocity (85 / 100) else h1
  let h3 :=
    if dist < 3 then
      let closeness := max 0 (1 - dist / 3)
      let shakeIntensity := 5 / 100 + closeness ^ 4 * (6 / 10)
      let t := hNew h2 (rnd.x * shakeIntensity) (rnd.y * shakeIntensity)
        (rnd.z * shakeIntensity)
      hAddV t.2 moveVec t.1
    else h2
  let currentScale1 :=
    if trappedCount > 8 ∧ dist < 5 / 2 then
      currentScale *
        max (8 / 10) (99 / 100 - min ((trappedCount : ℚ) - 8) 50 * (5 / 1000))
    else currentScale
  let t2 := hClone h3 currentVelocity
  let h4 := hMulScalar t2.2 t2.1 dt
  let active1 := if currentScale1 < 1 / 10 then false else active
  ⟨t2.1, currentScale1, active1, h4⟩

/-- RED branch (lines 288-336) over the store: `dirOut` is one cell that is
scaled in place at line 319, scaled again at line 327 (as `pushOut`), shifted
at line 329 and scaled and copied into the velocity at line 333. -/
def heapRedUpdate (sqrtF : ℚ → ℚ) (dist dt : ℚ)
    (currentPos currentVelocity moveVec : ℕ) (currentScale : ℚ)
    (active : Bool) (h : Heap) : HBranchResult :=
  if dist < 9 / 2 then
    let t :=
      if dist > 1 / 100 then
        let c := hClone h currentPos
        (c.1, hNormalize sqrtF c.2 c.1)
      else hNew h 1 0 0
    let dirOut := t.1
    let h1 := t.2
    let approachSpeed :=
      -(Vec3.dot (h1.read currentVelocity) (h1.read dirOut))
    let rawDepth := max 0 ((dist - 3 / 2) / 3)
    let intensity := (1 - rawDepth) ^ 3
    let staticForce := 80 * intensity
    let reflectionForce :=
      if approachSpeed > 0 then approachSpeed * (1 + 40 * intensity) else 0
    let totalForce := (staticForce + reflectionForce) * dt
    -- the finiteness guard of line 318 always holds over ℚ
    let h2 := hMulScalar h1 dirOut totalForce
    let h3 := hAddV h2 currentVelocity dirOut
    let t2 := hClone h3 currentVelocity
    let moveVec1 := t2.1
    let h4 := hMulScalar t2.2 moveVec1 dt
    if dist < 17 / 10 then
      let h5 := hMulScalar h4 dirOut (17 / 10)
      let h6 := hSubV h5 dirOut currentPos
      let h7 := hAddV h6 moveVec1 dirOut
      let h8 :=
        if approachSpeed > 0 then
          let currentSpeed := sqrtF (Vec3.lengthSq (h7.read currentVelocity))
          hCopy (hMulScalar h7 dirOut (currentSpeed * (8 / 10)))
            currentVelocity dirOut
        else h7
      ⟨moveVec1, currentScale, active, h8⟩
    else ⟨moveVec1, currentScale, active, h4⟩
  else ⟨moveVec, currentScale, active, h⟩

/-- PURPLE branch (lines 337-364) over the store. -/
def heapPurpleUpdate (sqrtF : ℚ → ℚ) (dist distSq dt : ℚ) (rnd : Vec3)
    (currentPos currentVelocity moveVec : ℕ) (currentScale : ℚ)
    (active : Bool) (h : Heap) : HBranchResult :=
  let safeDistSq := max (1 / 10) distSq
  let pullStrength := 30 / (safeDistSq + 1 / 10)
  let t :=
    if dist > 1 / 10 then
      let c := hClone h currentPos
      (c.1, hNegate (hNormalize sqrtF c.2 c.1) c.1)
    else hNew h 0 0 0
  let h1 := hMulScalar t.2 t.1 (pullStrength * dt)
  let h2 := hAddV h1 currentVelocity t.1
  let t2 := hClone h2 currentVelocity
  let moveVec1 := t2.1
  let h3 := hMulScalar t2.2 moveVec1 dt
  let h4 :=
    if dist < 5 / 2 then hMulScalar h3 currentVelocity (92 / 100) else h3
  let h5 := if dist < 5 / 2 then hMulScalar h4 moveVec1 (92 / 100) else h4
  let h6 :=
    if dist < 5 / 2 then
      let vibration := 2 / 10 * (1 - dist / (5 / 2))
      let t3 := hNew h5 (rnd.x * vibration) (rnd.y * vibration)
        (rnd.z * vibration)
      hAddV t3.2 moveVec1 t3.1
    else h5
  let currentScale1 :=
    if dist < 5 / 2 then currentScale * (92 / 100) else currentScale
  let active1 := if currentScale1 < 5 / 100 then false else active
  let active2 := if dist < 1 / 2 then false else active1
  ⟨moveVec1, currentScale1, active2, h6⟩

/-- The active path of the per-particle body over the store.  The position
and velocity of the input record are only ever read (`clone`, `lengthSq`);
every mutated vector is a tick-local allocation, and the returned record
holds the references of `newPos` (the mutated clone `currentPos`) and of the
cloned velocity. -/
def heapUpdateActive (sqrtF : ℚ → ℚ) (technique : TechniqueType)
    (trappedCount : ℕ) (isCrowded : Bool) (dt : ℚ) (rnd : Vec3) (h : Heap)
    (p : HProjectile) : HProjectile × Heap :=
    let t1 := hClone h p.position
    let currentPos := t1.1
    -- the isNaN position safeguard cannot fire over ℚ
    let distSq := Vec3.lengthSq (t1.2.read currentPos)
    let dist := sqrtF distSq
    let t2 := hClone t1.2 p.velocity
    let currentVelocity := t2.1
    let t3 := hClone t2.2 currentVelocity
    let moveVec := t3.1
    let h1 := hMulScalar t3.2 moveVec dt
    let r :=
      match technique with
      | TechniqueType.NEUTRAL =>
          heapNeutralUpdate isCrowded dist dt rnd currentVelocity moveVec
            p.scale p.active h1
      | TechniqueType.BLUE =>
          heapBlueUpdate sqrtF trappedCount dist dt rnd currentPos
            currentVelocity moveVec p.scale p.active h1
      | TechniqueType.RED =>
          heapRedUpdate sqrtF dist dt currentPos currentVelocity moveVec
            p.scale p.active h1
      | TechniqueType.PURPLE =>
          heapPurpleUpdate sqrtF dist distSq dt rnd currentPos
            currentVelocity moveVec p.scale p.active h1
    -- line 366: newPos = currentPos.add(moveVec) — newPos aliases currentPos
    let h2 := hAddV r.heap currentPos r.moveVec
    let active1 :=
      if sqrtF (Vec3.lengthSq (h2.read currentPos)) > 30 then false
      else r.active
    let active2 := if r.scale < 1 / 100 then false else active1
    -- the final NaN check cannot fire over ℚ
    let p1 : HProjectile :=
      { p with position := currentPos, velocity := currentVelocity,
               active := active2, scale := r.scale }
    (p1, h2)

/-- The per-particle body (lines 191-377) over the store: inactive particles
are returned untouched (line 192), active ones go through
`heapUpdateActive`. -/
def heapUpdateProjectile (sqrtF : ℚ → ℚ) (technique : TechniqueType)
    (trappedCount : ℕ) (isCrowded : Bool) (dt : ℚ) (rnd : Vec3) (h : Heap)
    (p : HProjectile) : HProjectile × Heap :=
  if p.active = false then (p, h)
  else heapUpdateActive sqrtF technique trappedCount isCrowded dt rnd h p

/-- Map the per-particle body over the pool, threading the store and the
per-particle random draws. -/
def heapPhysicsAux (sqrtF : ℚ → ℚ) (technique : TechniqueType)
    (trappedCount : ℕ) (isCrowded : Bool) (dt : ℚ) (rnd : ℕ → Vec3) :
    ℕ → Heap → List HProjectile → List HProjectile × Heap
  | _, h, [] => ([], h)
  | i, h, p :: rest =>
      let s := heapUpdateProjectile sqrtF technique trappedCount isCrowded dt
        (rnd i) h p
      let ss := heapPhysicsAux sqrtF technique trappedCount isCrowded dt rnd
        (i + 1) s.2 rest
      (s.1 :: ss.1, ss.2)

/-- The physics update (lines 175-379) over the store: aggregates from the
tick-start pool and store, then map and filter. -/
def heapPhysicsUpdate (sqrtF : ℚ → ℚ) (technique : TechniqueType) (dt : ℚ)
    (rnd : ℕ → Vec3) (h : Heap) (prev : List HProjectile) :
    List HProjectile × Heap :=
  let trappedCount :=
    if technique = TechniqueType.BLUE then
      prev.countP
        (fun p => p.active &&
          decide (Vec3.lengthSq (h.read p.position) < 25 / 4))
    else 0
  let isCrowded := decide (prev.length > 40)
  let s := heapPhysicsAux sqrtF technique trappedCount isCrowded dt rnd 0 h
    prev
  (s.1.filter (fun p => p.active), s.2)

/-- The store `h` extends `h0`: the allocated region grew and every cell of
`h0` is unchanged. -/
def Heap.Pres (h0 h : Heap) : Prop :=
  h0.size ≤ h.size ∧ ∀ i, i < h0.size → h.read i = h0.read i

/-- Extension is reflexive. -/
theorem Heap.Pres.refl (h : Heap) : Heap.Pres h h := ⟨le_rfl, fun _ _ => rfl⟩

/-- Extension is transitive. -/
theorem Heap.Pres.trans {h0 h1 h2 : Heap} (a : Heap.Pres h0 h1)
    (b : Heap.Pres h1 h2) : Heap.Pres h0 h2 :=
  ⟨a.1.trans b.1, fun i hi => (b.2 i (lt_of_lt_of_le hi a.1)).trans (a.2 i hi)⟩

/-- Writing a cell outside `h0`'s region preserves extension. -/
theorem presWrite {h0 h : Heap} (hp : Heap.Pres h0 h) {r : ℕ}
    (hr : h0.size ≤ r) (v : Vec3) : Heap.Pres h0 (h.write r v) := by
  refine ⟨hp.1, fun i hi => ?_⟩
  have : i ≠ r := by omega
  show (if i = r then v else h.data i) = h0.read i
  rw [if_neg this]
  exact hp.2 i hi

/-- Allocation preserves extension and returns a reference outside `h0`'s
region. -/
theorem presAlloc {h0 h : Heap} (hp : Heap.Pres h0 h) (v : Vec3) :
    Heap.Pres h0 (h.alloc v).2 ∧ h0.size ≤ (h.alloc v).1 := by
  refine ⟨⟨by have := hp.1; show h0.size ≤ h.size + 1; omega,
    fun i hi => ?_⟩, hp.1⟩
  have : i ≠ h.size := by have := hp.1; omega
  show (if i = h.size then v else h.data i) = h0.read i
  rw [if_neg this]
  exact hp.2 i hi

/-- `hClone` preserves extension and allocates a fresh reference. -/
theorem presClone {h0 h : Heap} (hp : Heap.Pres h0 h) (r : ℕ) :
    Heap.Pres h0 (hClone h r).2 ∧ h0.size ≤ (hClone h r).1 :=
  presAlloc hp _

/-- `hNew` preserves extension and allocates a fresh reference. -/
theorem presNew {h0 h : Heap} (hp : Heap.Pres h0 h) (x y z : ℚ) :
    Heap.Pres h0 (hNew h x y z).2 ∧ h0.size ≤ (hNew h x y z).1 :=
  presAlloc hp _

/-- `hAddV` on a fresh receiver preserves extension. -/
theorem presAddV {h0 h : Heap} (hp : Heap.Pres h0 h) {r : ℕ}
    (hr : h0.size ≤ r) (o : ℕ) : Heap.Pres h0 (hAddV h r o) :=
  presWrite hp hr _

/-- `hSubV` on a fresh receiver preserves extension. -/
theorem presSubV {h0 h : Heap} (hp : Heap.Pres h0 h) {r : ℕ}
    (hr : h0.size ≤ r) (o : ℕ) : Heap.Pres h0 (hSubV h r o) :=
  presWrite hp hr _

/-- `hMulScalar` on a fresh receiver preserves extension. -/
theorem presMulScalar {h0 h : Heap} (hp : Heap.Pres h0 h) {r : ℕ}
    (hr : h0.size ≤ r) (k : ℚ) : Heap.Pres h0 (hMulScalar h r k) :=
  presWrite hp hr _

/-- `hNegate` on a fresh receiver preserves extension. -/
theorem presNegate {h0 h : Heap} (hp : Heap.Pres h0 h) {r : ℕ}
    (hr : h0.size ≤ r) : Heap.Pres h0 (hNegate h r) :=
  presWrite hp hr _

/-- `hCopy` on a fresh receiver preserves extension. -/
theorem presCopy {h0 h : Heap} (hp : Heap.Pres h0 h) {r : ℕ}
    (hr : h0.size ≤ r) (o : ℕ) : Heap.Pres h0 (hCopy h r o) :=
  presWrite hp hr _

/-- `hNormalize` on a fresh receiver preserves extension. -/
theorem presNormalize {h0 h : Heap} (hp : Heap.Pres h0 h)
    (sqrtF : ℚ → ℚ) {r : ℕ} (hr : h0.size ≤ r) :
    Heap.Pres h0 (hNormalize sqrtF h r) :=
  presWrite hp hr _

/-- Heap component of `hClone`. -/
theorem presCloneHeap {h0 h : Heap} (hp : Heap.Pres h0 h) (r : ℕ) :
    Heap.Pres h0 (hClone h r).2 := (presClone hp r).1

/-- Reference component of `hClone` is outside `h0`'s region. -/
theorem presCloneRef {h0 h : Heap} (hp : Heap.Pres h0 h) (r : ℕ) :
    h0.size ≤ (hClone h r).1 := (presClone hp r).2

/-- Heap component of `hNew`. -/
theorem presNewHeap {h0 h : Heap} (hp : Heap.Pres h0 h) (x y z : ℚ) :
    Heap.Pres h0 (hNew h x y z).2 := (presNew hp x y z).1

/-- Reference component of `hNew` is outside `h0`'s region. -/
theorem presNewRef {h0 h : Heap} (hp : Heap.Pres h0 h) (x y z : ℚ) :
    h0.size ≤ (hNew h x y z).1 := (presNew hp x y z).2

/-- The NEUTRAL branch writes only tick-local cells: it preserves every cell
of `h0` and returns a move-vector reference outside `h0`'s region. -/
theorem heapNeutralUpdate_pres (h0 : Heap) (crowded : Bool) (dist dt : ℚ)
    (rnd : Vec3) (cv mv : ℕ) (s : ℚ) (a : Bool) (h : Heap)
    (hp : Heap.Pres h0 h) (hmv : h0.size ≤ mv) :
    Heap.Pres h0 (heapNeutralUpdate crowded dist dt rnd cv mv s a h).heap ∧
      h0.size ≤ (heapNeutralUpdate crowded dist dt rnd cv mv s a h).moveVec :=
  by
  simp only [heapNeutralUpdate]
  split_ifs <;> refine ⟨?_, ?_⟩ <;>
    (repeat
      first
      | exact hp
      | exact hmv
      | apply presAddV
      | apply presMulScalar
      | apply presNewHeap
      | apply presNewRef)

/-- The BLUE branch writes only tick-local cells (the cloned pull direction,
the already-cloned velocity and move vector, and the fresh clone of line
284): it preserves every cell of `h0` and returns a fresh move-vector
reference. -/
theorem heapBlueUpdate_pres (h0 : Heap) (sqrtF : ℚ → ℚ) (trapped : ℕ)
    (dist dt : ℚ) (rnd : Vec3) (cp cv mv : ℕ) (s : ℚ) (a : Bool) (h : Heap)
    (hp : Heap.Pres h0 h) (hcv : h0.size ≤ cv) (hmv : h0.size ≤ mv) :
    Heap.Pres h0
        (heapBlueUpdate sqrtF trapped dist dt rnd cp cv mv s a h).heap ∧
      h0.size ≤
        (heapBlueUpdate sqrtF trapped dist dt rnd cp cv mv s a h).moveVec :=
  by
  simp only [heapBlueUpdate]
  split_ifs <;> (try dsimp only) <;> refine ⟨?_, ?_⟩ <;>
    (repeat
      first
      | exact hp
      | exact hmv
      | exact hcv
      | apply presAddV
      | apply presSubV
      | apply presMulScalar
      | apply presNegate
      | apply presCopy
      | apply presNormalize
      | apply presNewHeap
      | apply presNewRef
      | apply presCloneHeap
      | apply presCloneRef)

/-- The RED branch writes only tick-local cells (the cloned `dirOut`, the
cloned velocity and the fresh bounce move vector): it preserves every cell of
`h0` and returns a move-vector reference outside `h0`'s region. -/
theorem heapRedUpdate_pres (h0 : Heap) (sqrtF : ℚ → ℚ) (dist dt : ℚ)
    (cp cv mv : ℕ) (s : ℚ) (a : Bool) (h : Heap)
    (hp : Heap.Pres h0 h) (hcv : h0.size ≤ cv) (hmv : h0.size ≤ mv) :
    Heap.Pres h0 (heapRedUpdate sqrtF dist dt cp cv mv s a h).heap ∧
      h0.size ≤ (heapRedUpdate sqrtF dist dt cp cv mv s a h).moveVec := by
  simp only [heapRedUpdate]
  split_ifs <;> (try dsimp only) <;> refine ⟨?_, ?_⟩ <;>
    (repeat
      first
      | exact hp
      | exact hmv
      | exact hcv
      | apply presAddV
      | apply presSubV
      | apply presMulScalar
      | apply presNegate
      | apply presCopy
      | apply presNormalize
      | apply presNewHeap
      | apply presNewRef
      | apply presCloneHeap
      | apply presCloneRef)

/-- The PURPLE branch writes only tick-local cells: it preserves every cell
of `h0` and returns a fresh move-vector reference. -/
theorem heapPurpleUpdate_pres (h0 : Heap) (sqrtF : ℚ → ℚ)
    (dist distSq dt : ℚ) (rnd : Vec3) (cp cv mv : ℕ) (s : ℚ) (a : Bool)
    (h : Heap) (hp : Heap.Pres h0 h) (hcv : h0.size ≤ cv)
    (hmv : h0.size ≤ mv) :
    Heap.Pres h0
        (heapPurpleUpdate sqrtF dist distSq dt rnd cp cv mv s a h).heap ∧
      h0.size ≤
        (heapPurpleUpdate sqrtF dist distSq dt rnd cp cv mv s a h).moveVec :=
  by
  simp only [heapPurpleUpdate]
  split_ifs <;> (try dsimp only) <;> refine ⟨?_, ?_⟩ <;>
    (repeat
      first
      | exact hp
      | exact hmv
      | exact hcv
      | apply presAddV
      | apply presSubV
      | apply presMulScalar
      | apply presNegate
      | apply presCopy
      | apply presNormalize
      | apply presNewHeap
      | apply presNewRef
      | apply presCloneHeap
      | apply presCloneRef)

/-- The per-particle body never writes a pre-existing cell: the whole input
store is preserved, an active particle's output record holds freshly
allocated position/velocity references, and an inactive particle is returned
untouched. -/
theorem heapUpdateProjectile_pres (sqrtF : ℚ → ℚ) (technique : TechniqueType)
    (trapped : ℕ) (crowded : Bool) (dt : ℚ) (rnd : Vec3) (h : Heap)
    (p : HProjectile) :
    Heap.Pres h
        (heapUpdateProjectile sqrtF technique trapped crowded dt rnd h p).2 ∧
      (p.active = true →
        h.size ≤
            (heapUpdateProjectile sqrtF technique trapped crowded dt rnd h
              p).1.position ∧
          h.size ≤
            (heapUpdateProjectile sqrtF technique trapped crowded dt rnd h
              p).1.velocity) ∧
      (p.active = false →
        heapUpdateProjectile sqrtF technique trapped crowded dt rnd h p =
          (p, h)) := by
  by_cases hact : p.active = false
  · have he : heapUpdateProjectile sqrtF technique trapped crowded dt rnd h p
        = (p, h) := by
      unfold heapUpdateProjectile
      rw [if_pos hact]
    refine ⟨?_, ?_, fun _ => he⟩
    · rw [he]
      exact Heap.Pres.refl h
    · intro habs
      rw [habs] at hact
      simp at hact
  · have A1 := presClone (Heap.Pres.refl h) p.position
    have A2 := presClone A1.1 p.velocity
    have A3 := presClone A2.1 (hClone (hClone h p.position).2 p.velocity).1
    have A4 := presMulScalar A3.1 A3.2 dt
    have hT : p.active = true := by
      revert hact
      cases p.active <;> simp
    cases technique with
    | NEUTRAL =>
        refine ⟨?_, fun _ => ?_, fun hF => absurd hF hact⟩ <;>
          (unfold heapUpdateProjectile heapUpdateActive;
            rw [if_neg hact]) <;> (try dsimp only)
        · exact presAddV
            (heapNeutralUpdate_pres h _ _ _ _ _ _ _ _ _ A4 A3.2).1 A1.2 _
        · exact ⟨A1.2, A2.2⟩
    | BLUE =>
        refine ⟨?_, fun _ => ?_, fun hF => absurd hF hact⟩ <;>
          (unfold heapUpdateProjectile heapUpdateActive;
            rw [if_neg hact]) <;> (try dsimp only)
        · exact presAddV
            (heapBlueUpdate_pres h _ _ _ _ _ _ _ _ _ _ _ A4 A2.2 A3.2).1
            A1.2 _
        · exact ⟨A1.2, A2.2⟩
    | RED =>
        refine ⟨?_, fun _ => ?_, fun hF => absurd hF hact⟩ <;>
          (unfold heapUpdateProjectile heapUpdateActive;
            rw [if_neg hact]) <;> (try dsimp only)
        · exact presAddV
            (heapRedUpdate_pres h _ _ _ _ _ _ _ _ _ A4 A2.2 A3.2).1 A1.2 _
        · exact ⟨A1.2, A2.2⟩
    | PURPLE =>
        refine ⟨?_, fun _ => ?_, fun hF => absurd hF hact⟩ <;>
          (unfold heapUpdateProjectile heapUpdateActive;
            rw [if_neg hact]) <;> (try dsimp only)
        · exact presAddV
            (heapPurpleUpdate_pres h _ _ _ _ _ _ _ _ _ _ _ A4 A2.2 A3.2).1
            A1.2 _
        · exact ⟨A1.2, A2.2⟩

/-- Threading the per-particle body over a pool preserves the whole starting
store, and every active output record holds freshly allocated references. -/
theorem heapPhysicsAux_pres (sqrtF : ℚ → ℚ) (technique : TechniqueType)
    (trapped : ℕ) (crowded : Bool) (dt : ℚ) (rnd : ℕ → Vec3) :
    ∀ (prev : List HProjectile) (i : ℕ) (h : Heap),
      Heap.Pres h
          (heapPhysicsAux sqrtF technique trapped crowded dt rnd i h
            prev).2 ∧
        ∀ q ∈ (heapPhysicsAux sqrtF technique trapped crowded dt rnd i h
            prev).1,
          q.active = true → h.size ≤ q.position ∧ h.size ≤ q.velocity := by
  intro prev
  induction prev with
  | nil =>
      intro i h
      refine ⟨Heap.Pres.refl h, ?_⟩
      intro q hq
      simp [heapPhysicsAux] at hq
  | cons p rest ih =>
      intro i h
      have S := heapUpdateProjectile_pres sqrtF technique trapped crowded dt
        (rnd i) h p
      have R := ih (i + 1)
        (heapUpdateProjectile sqrtF technique trapped crowded dt (rnd i) h
          p).2
      simp only [heapPhysicsAux]
      refine ⟨S.1.trans R.1, ?_⟩
      intro q hq hqa
      rcases List.mem_cons.mp hq with rfl | hq2
      · by_cases hpa : p.active = false
        · have he := S.2.2 hpa
          rw [he] at hqa ⊢
          rw [hqa] at hpa
          simp at hpa
        · have hT : p.active = true := by
            revert hpa
            cases p.active <;> simp
          exact S.2.1 hT
      · have hmem := R.2 q hq2 hqa
        exact ⟨le_trans S.1.1 hmem.1, le_trans S.1.1 hmem.2⟩

/-- C10.  The physics update never mutates its input: every vector cell that
existed before the tick is unchanged in the store after the tick (the
previous pool's position and velocity objects are read-only: cloned, never
written), the store only grew, and every record of the new pool carries
position and velocity references allocated during this tick — fresh records
with fresh vectors. -/
theorem physics_update_does_not_mutate_input (sqrtF : ℚ → ℚ)
    (technique : TechniqueType) (dt : ℚ) (rnd : ℕ → Vec3) (h : Heap)
    (prev : List HProjectile) :
    (∀ i, i < h.size →
      (heapPhysicsUpdate sqrtF technique dt rnd h prev).2.read i =
        h.read i) ∧
      h.size ≤ (heapPhysicsUpdate sqrtF technique dt rnd h prev).2.size ∧
      (∀ q ∈ (heapPhysicsUpdate sqrtF technique dt rnd h prev).1,
        h.size ≤ q.position ∧ h.size ≤ q.velocity) := by
  have A := heapPhysicsAux_pres sqrtF technique
    (if technique = TechniqueType.BLUE then
      prev.countP
        (fun p => p.active &&
          decide (Vec3.lengthSq (h.read p.position) < 25 / 4))
    else 0)
    (decide (prev.length > 40)) dt rnd prev 0 h
  simp only [heapPhysicsUpdate]
  refine ⟨fun i hi => A.1.2 i hi, A.1.1, ?_⟩
  intro q hq
  rw [List.mem_filter] at hq
  exact A.2 q hq.1 hq.2

/-- A one-cell store and a particle whose position and velocity reference
that cell. -/
def heapWitnessStore : Heap := ⟨1, fun _ => ⟨31, 0, 0⟩⟩

/-- The particle living in `heapWitnessStore`. -/
def heapWitnessParticle : HProjectile :=
  { id := 1, position := 0, velocity := 0, active := true,
    color := "#fbbf24", scale := 1 }

/-- C10 witness: the non-mutation theorem at a concrete one-cell store. -/
theorem physics_update_does_not_mutate_input_witness :
    (heapPhysicsUpdate (fun _ => 0) TechniqueType.NEUTRAL (1 / 10)
        (fun _ => ⟨0, 0, 0⟩) heapWitnessStore
        [heapWitnessParticle]).2.read 0 = heapWitnessStore.read 0 :=
  (physics_update_does_not_mutate_input (fun _ => 0) TechniqueType.NEUTRAL
    (1 / 10) (fun _ => ⟨0, 0, 0⟩) heapWitnessStore [heapWitnessParticle]).1 0
    (by norm_num [heapWitnessStore])
